import Mathlib

/- Shallow embedding of the ChainEVM transaction executor: domain value objects,
   the EVMTransaction entity, the circuit breaker, the retry manager, the
   confirmation waiter, and the Execute use case, each translated from the Go
   source of the repository. -/

deriving instance DecidableEq for Except

namespace ChainEVM

/-- Hexadecimal digit test, matching the character class 0-9a-fA-F used by the
address and hash validation regular expressions. -/
def isHexDigit (c : Char) : Bool :=
  c.isDigit || ('a' ≤ c && c ≤ 'f') || ('A' ≤ c && c ≤ 'F')

/-- Lowercase hexadecimal digit test, matching the character class 0-9a-f of the
UUID validation regular expression. -/
def isLowerHexDigit (c : Char) : Bool :=
  c.isDigit || ('a' ≤ c && c ≤ 'f')

/-- Character list made of exactly n hexadecimal characters: the regex fragment
0-9a-fA-F repeated n times anchored on both sides. -/
def hexChars (n : Nat) (l : List Char) : Bool :=
  l.length == n && l.all isHexDigit

/-- Validation of an EVM address: 40 hexadecimal characters with an optional 0x
prefix, as in isValidEVMAddress of the valueobjects package. A string starting
with the 0x prefix cannot match the bare alternative of the regex, since x is
not a hexadecimal character. -/
def isValidEVMAddress (s : String) : Bool :=
  match s.data with
  | '0' :: 'x' :: rest => hexChars 40 rest
  | l => hexChars 40 l

/-- Validation of a transaction hash: 64 hexadecimal characters with an optional
0x prefix, as in isValidTransactionHash of the valueobjects package. -/
def isValidTransactionHash (s : String) : Bool :=
  match s.data with
  | '0' :: 'x' :: rest => hexChars 64 rest
  | l => hexChars 64 l

/-- Consumes exactly n lowercase hexadecimal characters, returning the rest of
the input, or nothing when the input does not supply them. -/
def lowerHexRun : Nat → List Char → Option (List Char)
  | 0, l => some l
  | _ + 1, [] => none
  | n + 1, c :: rest => if isLowerHexDigit c then lowerHexRun n rest else none

/-- Consumes one expected character. -/
def expectChar (c : Char) : List Char → Option (List Char)
  | [] => none
  | d :: rest => if d == c then some rest else none

/-- Validation of an operation identifier: lowercase UUID shape 8-4-4-4-12 with
hyphen separators, anchored, as in isValidOperationID of the valueobjects
package. -/
def isValidOperationID (s : String) : Bool :=
  (do
    let r ← lowerHexRun 8 s.data
    let r ← expectChar '-' r
    let r ← lowerHexRun 4 r
    let r ← expectChar '-' r
    let r ← lowerHexRun 4 r
    let r ← expectChar '-' r
    let r ← lowerHexRun 4 r
    let r ← expectChar '-' r
    let r ← lowerHexRun 12 r
    if r.isEmpty then some () else none).isSome

/-- Membership test of the ChainType enumeration (IsValid on ChainType). -/
def chainTypeIsValid (s : String) : Bool :=
  s == "ETHEREUM" || s == "POLYGON" || s == "BSC" || s == "ARBITRUM" ||
  s == "OPTIMISM" || s == "AVALANCHE"

/-- Membership test of the OperationType enumeration (IsValid on OperationType). -/
def operationTypeIsValid (s : String) : Bool :=
  s == "TRANSFER" || s == "DEPLOY" || s == "CALL" || s == "APPROVE" ||
  s == "SWAP" || s == "STAKE" || s == "UNSTAKE" || s == "WITHDRAW" ||
  s == "MINT" || s == "BURN" || s == "QUERY" || s == "GET_BALANCE" ||
  s == "GET_NONCE" || s == "ESTIMATE_GAS"

/-- Write-operation test on operation types (IsWriteOperation). -/
def isWriteOperation (s : String) : Bool :=
  s == "TRANSFER" || s == "DEPLOY" || s == "CALL" || s == "APPROVE" ||
  s == "SWAP" || s == "STAKE" || s == "UNSTAKE" || s == "WITHDRAW" ||
  s == "MINT" || s == "BURN"

/-- Smart constructor NewChainType: validates and returns the value or an error. -/
def NewChainType (v : String) : Except String String :=
  if chainTypeIsValid v then .ok v else .error ("invalid chain type: " ++ v)

/-- Smart constructor NewOperationType. -/
def NewOperationType (v : String) : Except String String :=
  if operationTypeIsValid v then .ok v else .error ("invalid operation type: " ++ v)

/-- Smart constructor NewOperationID. -/
def NewOperationID (v : String) : Except String String :=
  if isValidOperationID v then .ok v else .error ("invalid operation ID: " ++ v)

/-- Smart constructor NewEVMAddress. -/
def NewEVMAddress (v : String) : Except String String :=
  if isValidEVMAddress v then .ok v else .error ("invalid EVM address: " ++ v)

/-- Smart constructor NewTransactionHash: on a malformed hash string it yields
the empty string together with the error, as the Go constructor returns the
zero value of TransactionHash and a non-nil error. -/
def NewTransactionHash (v : String) : Except String String :=
  if isValidTransactionHash v then .ok v else .error ("invalid transaction hash: " ++ v)

/-- Transaction lifecycle status, from the entities package. -/
inductive TransactionStatus
  | pending
  | processing
  | success
  | failed
  | confirmed
deriving DecidableEq, Repr

/-- String form of a status, matching the Go string constants. -/
def statusString : TransactionStatus → String
  | .pending => "PENDING"
  | .processing => "PROCESSING"
  | .success => "SUCCESS"
  | .failed => "FAILED"
  | .confirmed => "CONFIRMED"

/-- The EVMTransaction aggregate. Timestamps and the opaque payload map are
omitted: no claim depends on them. -/
structure EVMTransaction where
  operationID : String
  chainType : String
  operationType : String
  fromAddress : String
  toAddress : String
  txHash : String
  status : TransactionStatus
  blockNumber : Option Int
  gasUsed : Option Int
  gasPrice : Option String
  nonce : Option Int
  errorMessage : String
  idempotencyKey : String
deriving DecidableEq, Repr

/-- Constructor NewEVMTransaction: fresh transaction in Pending state. -/
def NewEVMTransaction (operationID chainType operationType fromAddress toAddress
    idempotencyKey : String) : EVMTransaction :=
  { operationID := operationID
    chainType := chainType
    operationType := operationType
    fromAddress := fromAddress
    toAddress := toAddress
    txHash := ""
    status := .pending
    blockNumber := none
    gasUsed := none
    gasPrice := none
    nonce := none
    errorMessage := ""
    idempotencyKey := idempotencyKey }

/-- MarkAsProcessing. -/
def markAsProcessing (t : EVMTransaction) : EVMTransaction :=
  { t with status := .processing }

/-- MarkAsSuccess: sets status, hash, block number and gas used. -/
def markAsSuccess (t : EVMTransaction) (txHash : String) (blockNumber gasUsed : Int) :
    EVMTransaction :=
  { t with
    status := .success
    txHash := txHash
    blockNumber := some blockNumber
    gasUsed := some gasUsed }

/-- MarkAsConfirmed: sets only the status. -/
def markAsConfirmed (t : EVMTransaction) : EVMTransaction :=
  { t with status := .confirmed }

/-- MarkAsFailed: sets status and error message. -/
def markAsFailed (t : EVMTransaction) (errorMsg : String) : EVMTransaction :=
  { t with status := .failed, errorMessage := errorMsg }

/-- SetTxMetadata: records gas price and nonce. -/
def setTxMetadata (t : EVMTransaction) (gasPrice : String) (nonce : Int) :
    EVMTransaction :=
  { t with gasPrice := some gasPrice, nonce := some nonce }

/-- Circuit breaker state enumeration. -/
inductive CBState
  | closed
  | opened
  | halfOpen
deriving DecidableEq, Repr

/-- Circuit breaker record. Time is modelled as a Nat tick count; the Go
halfOpenMaxRetries field is constructed but never read, so it is omitted. -/
structure CircuitBreaker where
  state : CBState
  failures : Nat
  successes : Nat
  lastFailureTime : Nat
  failureThreshold : Nat
  successThreshold : Nat
  timeout : Nat
deriving DecidableEq, Repr

/-- Constructor NewCircuitBreaker. -/
def NewCircuitBreaker (failureThreshold successThreshold timeout : Nat) :
    CircuitBreaker :=
  { state := .closed
    failures := 0
    successes := 0
    lastFailureTime := 0
    failureThreshold := failureThreshold
    successThreshold := successThreshold
    timeout := timeout }

/-- The State accessor: an Open breaker whose timeout has elapsed since the last
failure transitions to HalfOpen and resets the success counter; the read
returns the (possibly updated) state together with the updated breaker. -/
def CircuitBreaker.readState (cb : CircuitBreaker) (now : Nat) :
    CBState × CircuitBreaker :=
  if cb.state = .opened ∧ now - cb.lastFailureTime > cb.timeout then
    (.halfOpen, { cb with state := .halfOpen, successes := 0 })
  else
    (cb.state, cb)

/-- RecordSuccess: in HalfOpen, counts successes and closes at the threshold,
clearing both counters; in Closed, clears the failure counter; in Open, does
nothing. -/
def CircuitBreaker.recordSuccess (cb : CircuitBreaker) : CircuitBreaker :=
  if cb.state = .halfOpen then
    let successes := cb.successes + 1
    if successes ≥ cb.successThreshold then
      { cb with state := .closed, failures := 0, successes := 0 }
    else
      { cb with successes := successes }
  else if cb.state = .closed then
    { cb with failures := 0 }
  else
    cb

/-- RecordFailure: increments the failure counter, stamps the failure time, and
opens the breaker when the counter reaches the threshold. -/
def CircuitBreaker.recordFailure (cb : CircuitBreaker) (now : Nat) : CircuitBreaker :=
  let failures := cb.failures + 1
  if failures ≥ cb.failureThreshold then
    { cb with failures := failures, lastFailureTime := now, state := .opened }
  else
    { cb with failures := failures, lastFailureTime := now }

/-- Result of one Call through the breaker. -/
inductive CallResult
  | rejected (msg : String)
  | fnError (e : String)
  | passed
deriving DecidableEq, Repr

/-- Call: reads the state, short-circuits when Open, otherwise runs the wrapped
function and records the outcome. The Bool component tells whether the wrapped
function was invoked. -/
def CircuitBreaker.call (cb : CircuitBreaker) (now : Nat) (fn : Except String Unit) :
    CallResult × Bool × CircuitBreaker :=
  let read := cb.readState now
  if read.1 = .opened then
    (.rejected "circuit breaker is open", false, read.2)
  else
    match fn with
    | .error e => (.fnError e, true, read.2.recordFailure now)
    | .ok _ => (.passed, true, read.2.recordSuccess)

/-- Iterated Call with a fixed clock value and a fixed wrapped-function outcome. -/
def callN (now : Nat) (fn : Except String Unit) : Nat → CircuitBreaker → CircuitBreaker
  | 0, cb => cb
  | n + 1, cb => callN now fn n (cb.call now fn).2.2

/-- One poll of the confirmation waiter: the receipt lookup and the block-number
lookup each either answer or fail (a failure makes the loop retry on the next
tick). -/
structure Receipt where
  blockNumber : Nat
  gasUsed : Nat
deriving DecidableEq, Repr

/-- Outcome of one polling tick of WaitForConfirmations. -/
structure PollStep where
  receipt : Option Receipt
  currentBlock : Option Nat
deriving DecidableEq, Repr

/-- Confirmation count as computed by WaitForConfirmations:
current block minus receipt block plus one, over machine ints. -/
def computeConfirmations (currentBlock receiptBlock : Nat) : Int :=
  (currentBlock : Int) - (receiptBlock : Int) + 1

/-- WaitForConfirmations: walks the polling ticks until either the deadline
(end of the tick list, modelling context expiry) or a tick whose receipt and
current block yield enough confirmations. -/
def waitForConfirmations (requiredConfirmations : Int) :
    List PollStep → Except String Receipt
  | [] => .error "timeout waiting for confirmations"
  | step :: rest =>
    match step.receipt with
    | none => waitForConfirmations requiredConfirmations rest
    | some receipt =>
      match step.currentBlock with
      | none => waitForConfirmations requiredConfirmations rest
      | some currentBlock =>
        if computeConfirmations currentBlock receipt.blockNumber ≥ requiredConfirmations then
          .ok receipt
        else
          waitForConfirmations requiredConfirmations rest

/-- Work loop of ProcessWithRetry: attempt is the index of the current
invocation, remaining counts the attempts still allowed after this one. The
result carries the returned error or success, the number of processor
invocations, and the number of dead-letter deliveries. -/
def runAttempts (processor : Nat → Except String Unit) (dlq : Except String Unit) :
    Nat → Nat → Except String Unit × Nat × Nat
  | attempt, 0 =>
    match processor attempt with
    | .ok _ => (.ok (), 1, 0)
    | .error e =>
      match dlq with
      | .error dlqErr => (.error ("failed to send to DLQ: " ++ dlqErr), 1, 1)
      | .ok _ => (.error ("max retries exceeded: " ++ e), 1, 1)
  | attempt, remaining + 1 =>
    match processor attempt with
    | .ok _ => (.ok (), 1, 0)
    | .error _ =>
      let r := runAttempts processor dlq (attempt + 1) remaining
      (r.1, r.2.1 + 1, r.2.2)

/-- ProcessWithRetry with an uncancelled context: the loop runs attempts 0
through maxRetries; the last attempt on failure sends to the dead-letter queue
and returns the dead-letter error when that delivery fails, else the
max-retries error. -/
def processWithRetry (maxRetries : Nat) (processor : Nat → Except String Unit)
    (dlq : Except String Unit) : Except String Unit × Nat × Nat :=
  runAttempts processor dlq 0 maxRetries

/-- Observable effect of one Execute run against its collaborators: repository
reads and writes, RPC calls, signing and confirmation waiting. -/
inductive Effect
  | lookup (idempotencyKey : String)
  | save (tx : EVMTransaction)
  | rpcGetNonce (address : String)
  | rpcGetGasPrice
  | rpcGetBalance (address : String)
  | signAndSend
  | waitConfirmations (txHash : String) (requiredConfirmations : Nat)
deriving DecidableEq, Repr

/-- Repository-write test on effects. -/
def Effect.isSave : Effect → Bool
  | .save _ => true
  | _ => false

/-- RPC-side-effect test on effects (nonce, gas price, balance, sign-and-send,
confirmation wait). -/
def Effect.isRpc : Effect → Bool
  | .rpcGetNonce _ => true
  | .rpcGetGasPrice => true
  | .rpcGetBalance _ => true
  | .signAndSend => true
  | .waitConfirmations _ _ => true
  | _ => false

/-- Application error: code and message, from the pkg errors package. -/
structure AppError where
  code : String
  message : String
deriving DecidableEq, Repr

/-- Response DTO built by buildResponse; timestamp fields are omitted. -/
structure ExecuteTransactionResponse where
  operationID : String
  chainType : String
  transactionHash : String
  status : String
  blockNumber : Option Int
  gasUsed : Option Int
  gasPrice : Option String
  errorMessage : String
deriving DecidableEq, Repr

/-- The buildResponse helper of the use case. -/
def buildResponse (tx : EVMTransaction) : ExecuteTransactionResponse :=
  { operationID := tx.operationID
    chainType := tx.chainType
    transactionHash := tx.txHash
    status := statusString tx.status
    blockNumber := tx.blockNumber
    gasUsed := tx.gasUsed
    gasPrice := tx.gasPrice
    errorMessage := tx.errorMessage }

/-- Request DTO; the opaque payload map is omitted. -/
structure ExecuteTransactionRequest where
  operationID : String
  chainType : String
  operationType : String
  fromAddress : String
  toAddress : String
  idempotencyKey : String
deriving DecidableEq, Repr

/-- Behaviour of the collaborators of one Execute run: whether the idempotency
lookup fails, the outcome of each repository Save in call order (an exhausted
list means further saves succeed), whether an RPC client is configured for the
chain, whether a signer is configured, and the results of the RPC, signing and
confirmation-wait calls. -/
structure Oracles where
  lookupFails : Bool
  saveOutcomes : List Bool
  hasClient : Bool
  signerConfigured : Bool
  nonceResult : Except String Nat
  gasPriceResult : Except String Nat
  balanceResult : Except String Nat
  signResult : Except String String
  waitResult : Except String Receipt
deriving Repr

/-- Failure outcome of the dispatch step: the transaction as mutated so far,
the message passed to MarkAsFailed, and the application error returned. -/
structure DispatchFailure where
  tx : EVMTransaction
  failMessage : String
  appError : AppError
deriving Repr

/-- Dispatch step of Execute: the write branch (signer presence check, nonce,
gas price, metadata, sign-and-send, confirmation wait, success mark with the
validated hash) and the read branch (balance or nonce query, success mark with
an empty hash). Returns the success-marked transaction or a failure, plus the
RPC effects performed. -/
def dispatch (operationType fromAddr toAddr : String) (o : Oracles)
    (tx : EVMTransaction) : (EVMTransaction ⊕ DispatchFailure) × List Effect :=
  if isWriteOperation operationType then
    if o.signerConfigured = false then
      (.inr ⟨tx, "transaction signer not configured",
        ⟨"VALIDATION_FAILED", "signer not configured"⟩⟩, [])
    else
      match o.nonceResult with
      | .error _ =>
        (.inr ⟨tx, "failed to get nonce", ⟨"RPC_FAILED", "failed to get nonce"⟩⟩,
         [.rpcGetNonce fromAddr])
      | .ok nonce =>
        match o.gasPriceResult with
        | .error _ =>
          (.inr ⟨tx, "failed to get gas price",
            ⟨"RPC_FAILED", "failed to get gas price"⟩⟩,
           [.rpcGetNonce fromAddr, .rpcGetGasPrice])
        | .ok gasPrice =>
          let tx1 := setTxMetadata tx (toString gasPrice) (nonce : Int)
          match o.signResult with
          | .error e =>
            (.inr ⟨tx1, e, ⟨"RPC_FAILED", "failed to sign and send transaction"⟩⟩,
             [.rpcGetNonce fromAddr, .rpcGetGasPrice, .signAndSend])
          | .ok txHashStr =>
            match o.waitResult with
            | .error _ =>
              (.inr ⟨tx1, "confirmation timeout",
                ⟨"RPC_FAILED", "transaction not confirmed"⟩⟩,
               [.rpcGetNonce fromAddr, .rpcGetGasPrice, .signAndSend,
                .waitConfirmations txHashStr 12])
            | .ok receipt =>
              let txHash :=
                match NewTransactionHash txHashStr with
                | .ok h => h
                | .error _ => ""
              (.inl (markAsSuccess tx1 txHash (receipt.blockNumber : Int)
                (receipt.gasUsed : Int)),
               [.rpcGetNonce fromAddr, .rpcGetGasPrice, .signAndSend,
                .waitConfirmations txHashStr 12])
  else
    if operationType == "GET_BALANCE" then
      match o.balanceResult with
      | .error _ =>
        (.inr ⟨tx, "failed to get balance", ⟨"RPC_FAILED", "failed to get balance"⟩⟩,
         [.rpcGetBalance toAddr])
      | .ok _ => (.inl (markAsSuccess tx "" 0 0), [.rpcGetBalance toAddr])
    else if operationType == "GET_NONCE" then
      match o.nonceResult with
      | .error _ =>
        (.inr ⟨tx, "failed to get nonce", ⟨"RPC_FAILED", "failed to get nonce"⟩⟩,
         [.rpcGetNonce fromAddr])
      | .ok _ => (.inl (markAsSuccess tx "" 0 0), [.rpcGetNonce fromAddr])
    else
      (.inl (markAsSuccess tx "" 0 0), [])

/-- Post-lookup-miss part of Execute: initial persist of the Processing
transaction (with the failure-persist fallback), RPC client resolution,
dispatch, failure persist, and the final persist of the result. The input
transaction tx0 is already marked Processing. -/
def executeFresh (o : Oracles) (tx0 : EVMTransaction)
    (operationType fromAddr toAddr : String) :
    Except AppError ExecuteTransactionResponse × List Effect :=
  if o.saveOutcomes.headD true = false then
    (.error ⟨"DATABASE_ERROR", "failed to save transaction"⟩,
     [.save tx0, .save (markAsFailed tx0 "database error")])
  else if o.hasClient = false then
    (.error ⟨"CHAIN_NOT_SUPPORTED", "chain not supported"⟩,
     [.save tx0, .save (markAsFailed tx0 "RPC client not found")])
  else
    match dispatch operationType fromAddr toAddr o tx0 with
    | (.inr f, eff) =>
      (.error f.appError, [.save tx0] ++ eff ++ [.save (markAsFailed f.tx f.failMessage)])
    | (.inl txDone, eff) =>
      if (o.saveOutcomes.drop 1).headD true = false then
        (.error ⟨"DATABASE_ERROR", "failed to update transaction"⟩,
         [.save tx0] ++ eff ++ [.save txDone])
      else
        (.ok (buildResponse txDone), [.save tx0] ++ eff ++ [.save txDone])

/-- Durable-store write: DynamoDB PutItem overwrites the item keyed by the
operation identifier, else appends a new item. -/
def upsert (repo : List EVMTransaction) (tx : EVMTransaction) :
    List EVMTransaction :=
  if repo.any (fun t => t.operationID == tx.operationID) then
    repo.map (fun t => if t.operationID == tx.operationID then tx else t)
  else
    repo ++ [tx]

/-- Replays the Save effects of a trace against the store, applying each save
whose outcome (consumed in call order) is a success. -/
def replaySaves (outcomes : List Bool) (repo : List EVMTransaction) :
    List Effect → List EVMTransaction
  | [] => repo
  | .save tx :: rest =>
    if outcomes.headD true then
      replaySaves (outcomes.drop 1) (upsert repo tx) rest
    else
      replaySaves (outcomes.drop 1) repo rest
  | _ :: rest => replaySaves outcomes repo rest

/-- Wire-level item the DynamoDB repository stores: the fields Save marshals.
The payload map and the nonce are not part of the item, and timestamps are
omitted as everywhere in this model. -/
structure TransactionItem where
  operationID : String
  idempotencyKey : String
  chainType : String
  operationType : String
  fromAddress : String
  toAddress : String
  status : String
  transactionHash : String
  blockNumber : Option Int
  gasUsed : Option Int
  gasPrice : Option String
  errorMessage : String
deriving DecidableEq, Repr

/-- Marshalling performed by the repository Save: each entity field is copied
into the item, the status as its string form. -/
def toTransactionItem (tx : EVMTransaction) : TransactionItem :=
  { operationID := tx.operationID
    idempotencyKey := tx.idempotencyKey
    chainType := tx.chainType
    operationType := tx.operationType
    fromAddress := tx.fromAddress
    toAddress := tx.toAddress
    status := statusString tx.status
    transactionHash := tx.txHash
    blockNumber := tx.blockNumber
    gasUsed := tx.gasUsed
    gasPrice := tx.gasPrice
    errorMessage := tx.errorMessage }

/-- The repository unmarshalTransactionItem: re-validates the five identity
fields, rebuilds a fresh Pending entity, then replays the stored status. A
Success item is re-marked Success only when its stored hash is non-empty (a
hash parse failure is ignored and yields the empty hash); otherwise the entity
stays Pending. Gas price, nonce and the payload are not restored, and the
error message only on a Failed item. -/
def unmarshalTransactionItem (item : TransactionItem) :
    Except String EVMTransaction :=
  match NewOperationID item.operationID with
  | .error e => .error e
  | .ok operationID =>
  match NewChainType item.chainType with
  | .error e => .error e
  | .ok chainType =>
  match NewOperationType item.operationType with
  | .error e => .error e
  | .ok operationType =>
  match NewEVMAddress item.fromAddress with
  | .error e => .error e
  | .ok fromAddr =>
  match NewEVMAddress item.toAddress with
  | .error e => .error e
  | .ok toAddr =>
  let tx := NewEVMTransaction operationID chainType operationType fromAddr toAddr
    item.idempotencyKey
  if item.status == "PROCESSING" then
    .ok (markAsProcessing tx)
  else if item.status == "SUCCESS" then
    if item.transactionHash == "" then
      .ok tx
    else
      let txHash :=
        match NewTransactionHash item.transactionHash with
        | .ok h => h
        | .error _ => ""
      .ok (markAsSuccess tx txHash (item.blockNumber.getD 0) (item.gasUsed.getD 0))
  else if item.status == "CONFIRMED" then
    .ok (markAsConfirmed tx)
  else if item.status == "FAILED" then
    .ok (markAsFailed tx item.errorMessage)
  else
    .ok tx

/-- GetByIdempotencyKey against the store: a query failure or an absent item
both surface as an error, as in the DynamoDB repository (which returns a
transaction-not-found error on an empty query result); a hit unmarshals the
stored item, which Save marshalled from the saved entity, back into an
entity. -/
def getByIdempotencyKey (o : Oracles) (repo : List EVMTransaction) (key : String) :
    Except String EVMTransaction :=
  if o.lookupFails then
    .error "failed to query transaction"
  else
    match repo.find? (fun t => t.idempotencyKey == key) with
    | some stored => unmarshalTransactionItem (toTransactionItem stored)
    | none => .error "transaction not found"

/-- The Execute use case: field validation in source order, idempotency lookup
with early return on a hit, construction and Processing mark, then the fresh
execution path. Returns the result, the updated store, and the effect trace. -/
def execute (req : ExecuteTransactionRequest) (o : Oracles)
    (repo : List EVMTransaction) :
    Except AppError ExecuteTransactionResponse × List EVMTransaction × List Effect :=
  match NewChainType req.chainType with
  | .error e => (.error ⟨"CHAIN_NOT_SUPPORTED", e⟩, repo, [])
  | .ok chainType =>
  match NewOperationType req.operationType with
  | .error e => (.error ⟨"VALIDATION_FAILED", e⟩, repo, [])
  | .ok operationType =>
  match NewOperationID req.operationID with
  | .error e => (.error ⟨"VALIDATION_FAILED", e⟩, repo, [])
  | .ok operationID =>
  match NewEVMAddress req.fromAddress with
  | .error e => (.error ⟨"VALIDATION_FAILED", e⟩, repo, [])
  | .ok fromAddr =>
  match NewEVMAddress req.toAddress with
  | .error e => (.error ⟨"VALIDATION_FAILED", e⟩, repo, [])
  | .ok toAddr =>
  match getByIdempotencyKey o repo req.idempotencyKey with
  | .ok existingTx =>
    (.ok (buildResponse existingTx), repo, [.lookup req.idempotencyKey])
  | .error _ =>
    let tx0 := markAsProcessing (NewEVMTransaction operationID chainType
      operationType fromAddr toAddr req.idempotencyKey)
    let fr := executeFresh o tx0 operationType fromAddr toAddr
    (fr.1, replaySaves o.saveOutcomes repo fr.2, [.lookup req.idempotencyKey] ++ fr.2)

/-- Conjunction of the five field validators run by Execute. -/
def requestWellFormed (req : ExecuteTransactionRequest) : Bool :=
  chainTypeIsValid req.chainType && operationTypeIsValid req.operationType &&
  isValidOperationID req.operationID && isValidEVMAddress req.fromAddress &&
  isValidEVMAddress req.toAddress

/-- Invariant of records the repository can hold: Save is only called with
entities whose five identity fields passed validation, so stored items
re-validate successfully when unmarshalled. -/
def storedWellFormed (t : EVMTransaction) : Bool :=
  isValidOperationID t.operationID && chainTypeIsValid t.chainType &&
  operationTypeIsValid t.operationType && isValidEVMAddress t.fromAddress &&
  isValidEVMAddress t.toAddress

/-- Result carries an application error with the given code. -/
def isErrorWithCode (r : Except AppError ExecuteTransactionResponse)
    (code : String) : Bool :=
  match r with
  | .error e => e.code == code
  | .ok _ => false

/-- A trace contains a Save of a Failed-status transaction. -/
def savedFailed (tr : List Effect) : Bool :=
  tr.any fun eff =>
    match eff with
    | .save tx => tx.status == .failed
    | _ => false

/-- Transaction of the last Save effect of a trace, when any. -/
def lastSave (tr : List Effect) : Option EVMTransaction :=
  tr.foldl (fun acc eff =>
    match eff with
    | .save tx => some tx
    | _ => acc) none

/-- Status field of a successful result. -/
def responseStatus (r : Except AppError ExecuteTransactionResponse) : Option String :=
  match r with
  | .ok t => some t.status
  | .error _ => none

/-- Transaction-hash field of a successful result. -/
def responseHash (r : Except AppError ExecuteTransactionResponse) : Option String :=
  match r with
  | .ok t => some t.transactionHash
  | .error _ => none

/-- Inversion of a successful confirmation wait: the returning tick carries the
returned receipt and a current block meeting the required depth. -/
theorem waitForConfirmations_ok (required : Int) (polls : List PollStep)
    (receipt : Receipt) (h : waitForConfirmations required polls = .ok receipt) :
    ∃ step ∈ polls, step.receipt = some receipt ∧
      ∃ currentBlock, step.currentBlock = some currentBlock ∧
        computeConfirmations currentBlock receipt.blockNumber ≥ required := by
  induction polls with
  | nil => simp [waitForConfirmations] at h
  | cons step rest ih =>
    obtain ⟨sr, sb⟩ := step
    cases sr with
    | none =>
      simp only [waitForConfirmations] at h
      obtain ⟨s, hs, hrest⟩ := ih h
      exact ⟨s, List.mem_cons_of_mem _ hs, hrest⟩
    | some r =>
      cases sb with
      | none =>
        simp only [waitForConfirmations] at h
        obtain ⟨s, hs, hrest⟩ := ih h
        exact ⟨s, List.mem_cons_of_mem _ hs, hrest⟩
      | some currentBlock =>
        simp only [waitForConfirmations] at h
        by_cases hge : computeConfirmations currentBlock r.blockNumber ≥ required
        · rw [if_pos hge] at h
          have hrec : r = receipt := by
            cases h
            rfl
          subst hrec
          exact ⟨⟨some r, some currentBlock⟩, List.mem_cons_self _ _, rfl,
            currentBlock, rfl, hge⟩
        · rw [if_neg hge] at h
          obtain ⟨s, hs, hrest⟩ := ih h
          exact ⟨s, List.mem_cons_of_mem _ hs, hrest⟩

/-- C3: WaitForConfirmations never returns a receipt while the computed
confirmation count is below requiredConfirmations, and for a receipt in block
B with current block B plus k the computed confirmation count is k plus one. -/
theorem waitForConfirmations_confirmation_monotonicity :
    (∀ (required : Int) (polls : List PollStep) (receipt : Receipt),
      waitForConfirmations required polls = .ok receipt →
      ∃ step ∈ polls, step.receipt = some receipt ∧
        ∃ currentBlock, step.currentBlock = some currentBlock ∧
          computeConfirmations currentBlock receipt.blockNumber ≥ required) ∧
    (∀ B k : Nat, computeConfirmations (B + k) B = (k : Int) + 1) := by
  constructor
  · exact waitForConfirmations_ok
  · intro B k
    unfold computeConfirmations
    push_cast
    ring

/-- Witness for C3 at a concrete poll trace and depth 12. -/
theorem waitForConfirmations_confirmation_monotonicity_witness :
    (∃ step ∈ [PollStep.mk (some ⟨100, 21000⟩) (some 111)],
      step.receipt = some ⟨100, 21000⟩ ∧
      ∃ currentBlock, step.currentBlock = some currentBlock ∧
        computeConfirmations currentBlock 100 ≥ 12) ∧
    computeConfirmations (100 + 11) 100 = (11 : Int) + 1 :=
  ⟨waitForConfirmations_confirmation_monotonicity.1 12
      [PollStep.mk (some ⟨100, 21000⟩) (some 111)] ⟨100, 21000⟩ (by decide),
   waitForConfirmations_confirmation_monotonicity.2 100 11⟩

/-- Behaviour of the retry loop under an always-failing processor, by induction
over the remaining attempt budget. -/
theorem runAttempts_allFail (processor : Nat → Except String Unit)
    (dlq : Except String Unit) (hfail : ∀ i, ∃ e, processor i = .error e) :
    ∀ (remaining attempt : Nat),
      (runAttempts processor dlq attempt remaining).2.1 = remaining + 1 ∧
      (runAttempts processor dlq attempt remaining).2.2 = 1 ∧
      (∃ msg, (runAttempts processor dlq attempt remaining).1 = .error msg) ∧
      (∀ de, dlq = .error de →
        (runAttempts processor dlq attempt remaining).1 =
          .error ("failed to send to DLQ: " ++ de)) := by
  intro remaining
  induction remaining with
  | zero =>
    intro attempt
    obtain ⟨e, he⟩ := hfail attempt
    cases hd : dlq with
    | error de => simp [runAttempts, he, hd]
    | ok u =>
      refine ⟨by simp [runAttempts, he, hd], by simp [runAttempts, he, hd],
        ⟨"max retries exceeded: " ++ e, by simp [runAttempts, he, hd]⟩, ?_⟩
      intro de hde
      exact Except.noConfusion hde
  | succ r ih =>
    intro attempt
    obtain ⟨e, he⟩ := hfail attempt
    obtain ⟨ih1, ih2, ih3, ih4⟩ := ih (attempt + 1)
    refine ⟨?_, ?_, ?_, ?_⟩
    · simp [runAttempts, he, ih1]
    · simp [runAttempts, he, ih2]
    · obtain ⟨msg, hmsg⟩ := ih3
      exact ⟨msg, by simp [runAttempts, he, hmsg]⟩
    · intro de hde
      simp [runAttempts, he, ih4 de hde]

/-- C4: with an always-failing processor, ProcessWithRetry invokes the
processor exactly maxRetries plus one times, performs exactly one dead-letter
delivery, returns an error, and returns the dead-letter delivery error when
that delivery fails. -/
theorem processWithRetry_retry_termination (maxRetries : Nat)
    (processor : Nat → Except String Unit) (dlq : Except String Unit)
    (hfail : ∀ i, ∃ e, processor i = .error e) :
    (processWithRetry maxRetries processor dlq).2.1 = maxRetries + 1 ∧
    (processWithRetry maxRetries processor dlq).2.2 = 1 ∧
    (∃ msg, (processWithRetry maxRetries processor dlq).1 = .error msg) ∧
    (∀ de, dlq = .error de →
      (processWithRetry maxRetries processor dlq).1 =
        .error ("failed to send to DLQ: " ++ de)) :=
  runAttempts_allFail processor dlq hfail maxRetries 0

/-- Witness for C4: three retries, processor always failing, dead-letter sink
itself failing. -/
theorem processWithRetry_retry_termination_witness :
    (processWithRetry 3 (fun _ => .error "boom") (.error "dlq down")).2.1 = 3 + 1 ∧
    (processWithRetry 3 (fun _ => .error "boom") (.error "dlq down")).2.2 = 1 ∧
    (processWithRetry 3 (fun _ => .error "boom") (.error "dlq down")).1 =
      .error ("failed to send to DLQ: " ++ "dlq down") := by
  have h := processWithRetry_retry_termination 3 (fun _ => .error "boom")
    (.error "dlq down") (fun _ => ⟨"boom", rfl⟩)
  exact ⟨h.1, h.2.1, h.2.2.2 "dlq down" rfl⟩

/-- C9: while Open with the timeout not yet elapsed since the last failure,
Call rejects with the breaker-open error without invoking the wrapped
function; once the timeout has elapsed, the next state read transitions to
HalfOpen and resets the success counter. -/
theorem circuitBreaker_open_short_circuit (cb : CircuitBreaker) (now : Nat)
    (fn : Except String Unit) (hopen : cb.state = .opened) :
    (now - cb.lastFailureTime ≤ cb.timeout →
      cb.call now fn = (.rejected "circuit breaker is open", false, cb)) ∧
    (now - cb.lastFailureTime > cb.timeout →
      (cb.readState now).1 = .halfOpen ∧
      (cb.readState now).2.state = .halfOpen ∧
      (cb.readState now).2.successes = 0) := by
  constructor
  · intro hle
    have hcond : ¬(cb.state = .opened ∧ now - cb.lastFailureTime > cb.timeout) := by
      rintro ⟨-, hgt⟩
      omega
    unfold CircuitBreaker.call CircuitBreaker.readState
    rw [if_neg hcond]
    simp [hopen]
  · intro hgt
    unfold CircuitBreaker.readState
    rw [if_pos ⟨hopen, hgt⟩]
    exact ⟨rfl, rfl, rfl⟩

/-- Witness for C9 at a concrete Open breaker: rejected at 20 ticks of a
60-tick timeout, HalfOpen on the state read at 100 ticks. -/
theorem circuitBreaker_open_short_circuit_witness :
    (CircuitBreaker.mk .opened 3 0 100 3 2 60).call 120 (.ok ()) =
      (.rejected "circuit breaker is open", false,
        CircuitBreaker.mk .opened 3 0 100 3 2 60) ∧
    ((CircuitBreaker.mk .opened 3 0 100 3 2 60).readState 200).2.state = .halfOpen ∧
    ((CircuitBreaker.mk .opened 3 0 100 3 2 60).readState 200).2.successes = 0 := by
  refine ⟨(circuitBreaker_open_short_circuit _ 120 (.ok ()) rfl).1 (by decide), ?_, ?_⟩
  · exact ((circuitBreaker_open_short_circuit _ 200 (.ok ()) rfl).2 (by decide)).2.1
  · exact ((circuitBreaker_open_short_circuit _ 200 (.ok ()) rfl).2 (by decide)).2.2

/-- State read of a breaker that is not Open: no transition happens. -/
theorem readState_not_opened (cb : CircuitBreaker) (now : Nat)
    (h : cb.state ≠ .opened) : cb.readState now = (cb.state, cb) := by
  unfold CircuitBreaker.readState
  rw [if_neg]
  rintro ⟨ho, -⟩
  exact h ho

/-- A failing call through a breaker that is not Open records the failure. -/
theorem call_not_opened_fail (cb : CircuitBreaker) (now : Nat) (e : String)
    (h : cb.state ≠ .opened) :
    (cb.call now (.error e)).2.2 = cb.recordFailure now := by
  unfold CircuitBreaker.call
  rw [readState_not_opened cb now h]
  simp [h]

/-- A successful call through a breaker that is not Open records the success. -/
theorem call_not_opened_ok (cb : CircuitBreaker) (now : Nat)
    (h : cb.state ≠ .opened) :
    (cb.call now (.ok ())).2.2 = cb.recordSuccess := by
  unfold CircuitBreaker.call
  rw [readState_not_opened cb now h]
  simp [h]

/-- Consecutive failing calls from a Closed breaker: exactly at the failure
threshold the breaker opens, with the failure counter at the threshold and the
failure time stamped. -/
theorem callN_failures_open (now : Nat) (e : String) :
    ∀ (k : Nat) (cb : CircuitBreaker), cb.state = .closed →
      cb.failures + k = cb.failureThreshold → 1 ≤ k →
      callN now (.error e) k cb =
        { cb with state := .opened, failures := cb.failureThreshold, lastFailureTime := now } := by
  intro k
  induction k with
  | zero =>
    intro cb _ _ hk
    exact absurd hk (by omega)
  | succ n ih =>
    intro cb hclosed hsum _
    rw [callN, call_not_opened_fail cb now e (by simp [hclosed])]
    by_cases hth : cb.failures + 1 ≥ cb.failureThreshold
    · have hn : n = 0 := by omega
      subst hn
      have hf : cb.failures + 1 = cb.failureThreshold := by omega
      simp [CircuitBreaker.recordFailure, hth, callN, hf]
    · have hrec : cb.recordFailure now =
          { cb with failures := cb.failures + 1, lastFailureTime := now } := by
        simp [CircuitBreaker.recordFailure, hth]
      rw [hrec]
      rw [ih { cb with failures := cb.failures + 1, lastFailureTime := now }
        hclosed (by simp; omega) (by omega)]

/-- Consecutive successful calls from a HalfOpen breaker: exactly at the
success threshold the breaker closes with both counters cleared. -/
theorem callN_successes_close (now : Nat) :
    ∀ (k : Nat) (cb : CircuitBreaker), cb.state = .halfOpen →
      cb.successes + k = cb.successThreshold → 1 ≤ k →
      callN now (.ok ()) k cb =
        { cb with state := .closed, failures := 0, successes := 0 } := by
  intro k
  induction k with
  | zero =>
    intro cb _ _ hk
    exact absurd hk (by omega)
  | succ n ih =>
    intro cb hhalf hsum _
    rw [callN, call_not_opened_ok cb now (by simp [hhalf])]
    by_cases hth : cb.successes + 1 ≥ cb.successThreshold
    · have hn : n = 0 := by omega
      subst hn
      simp [CircuitBreaker.recordSuccess, hhalf, hth, callN]
    · have hrec : cb.recordSuccess = { cb with successes := cb.successes + 1 } := by
        simp [CircuitBreaker.recordSuccess, hhalf, hth]
      rw [hrec]
      rw [ih { cb with successes := cb.successes + 1 } hhalf (by simp; omega) (by omega)]

/-- State read of an Open breaker whose timeout has elapsed: transition to
HalfOpen with the success counter reset. -/
theorem readState_open_elapsed (cb : CircuitBreaker) (now : Nat)
    (hopen : cb.state = .opened) (hgt : now - cb.lastFailureTime > cb.timeout) :
    cb.readState now = (.halfOpen, { cb with state := .halfOpen, successes := 0 }) := by
  unfold CircuitBreaker.readState
  rw [if_pos ⟨hopen, hgt⟩]

/-- Recording a failure when the incremented counter meets the threshold opens
the breaker. -/
theorem recordFailure_state_opened (cb : CircuitBreaker) (now : Nat)
    (h : cb.failures + 1 ≥ cb.failureThreshold) :
    (cb.recordFailure now).state = .opened := by
  simp [CircuitBreaker.recordFailure, h]

/-- A call against an Open breaker whose timeout has elapsed behaves exactly
like a call against the HalfOpen breaker produced by the state read. -/
theorem call_open_elapsed (cb : CircuitBreaker) (now : Nat) (fn : Except String Unit)
    (hopen : cb.state = .opened) (hgt : now - cb.lastFailureTime > cb.timeout) :
    cb.call now fn = ({ cb with state := .halfOpen, successes := 0 }).call now fn := by
  have h2 : ({ cb with state := .halfOpen, successes := 0 } : CircuitBreaker).readState now =
      (.halfOpen, { cb with state := .halfOpen, successes := 0 }) :=
    readState_not_opened _ now (by simp)
  unfold CircuitBreaker.call
  rw [readState_open_elapsed cb now hopen hgt, h2]

/-- Iterated calls against an Open breaker whose timeout has elapsed equal the
iterated calls against the corresponding HalfOpen breaker. -/
theorem callN_open_elapsed (cb : CircuitBreaker) (now : Nat) (fn : Except String Unit)
    (hopen : cb.state = .opened) (hgt : now - cb.lastFailureTime > cb.timeout)
    (k : Nat) (hk : 1 ≤ k) :
    callN now fn k cb = callN now fn k ({ cb with state := .halfOpen, successes := 0 }) := by
  obtain ⟨m, rfl⟩ : ∃ m, k = m + 1 := ⟨k - 1, by omega⟩
  rw [callN, callN, call_open_elapsed cb now fn hopen hgt]

/-- C2 (amended): after failureThreshold consecutive failing calls from a fresh
breaker the state is Open; once the timeout has elapsed since the last
failure, successThreshold consecutive successful calls return it to Closed
with both counters cleared; but a single failure recorded while HalfOpen
immediately re-opens the breaker, because the failure counter is not reset on
the transition from Open to HalfOpen. -/
theorem circuitBreaker_closure_law (ft st tmo now now2 : Nat) (e : String)
    (hft : 1 ≤ ft) (hst : 1 ≤ st) (helapsed : now2 - now > tmo) :
    (callN now (.error e) ft (NewCircuitBreaker ft st tmo)).state = .opened ∧
    ((callN now2 (.ok ()) st
        (callN now (.error e) ft (NewCircuitBreaker ft st tmo))).state = .closed ∧
     (callN now2 (.ok ()) st
        (callN now (.error e) ft (NewCircuitBreaker ft st tmo))).failures = 0 ∧
     (callN now2 (.ok ()) st
        (callN now (.error e) ft (NewCircuitBreaker ft st tmo))).successes = 0) ∧
    (((callN now (.error e) ft (NewCircuitBreaker ft st tmo)).readState now2).2.state
        = .halfOpen ∧
     ((((callN now (.error e) ft (NewCircuitBreaker ft st tmo)).readState
        now2).2.call now2 (.error e)).2.2).state = .opened) := by
  have hopen := callN_failures_open now e ft (NewCircuitBreaker ft st tmo) rfl
    (show 0 + ft = ft by omega) hft
  rw [hopen]
  have hread := readState_open_elapsed
    ({ NewCircuitBreaker ft st tmo with state := .opened, failures := (NewCircuitBreaker ft st tmo).failureThreshold, lastFailureTime := now })
    now2 rfl (show now2 - now > tmo from helapsed)
  refine ⟨rfl, ?_, ?_, ?_⟩
  · rw [callN_open_elapsed _ now2 (.ok ()) rfl (show now2 - now > tmo from helapsed) st hst,
      callN_successes_close now2 st _ rfl (show 0 + st = st by omega) hst]
    exact ⟨rfl, rfl, rfl⟩
  · rw [hread]
  · rw [hread, call_not_opened_fail _ now2 e (by simp)]
    exact recordFailure_state_opened _ now2 (show ft + 1 ≥ ft by omega)

/-- Witness for C2 at failure threshold 3, success threshold 2, timeout 5,
failures at tick 0, recovery at tick 10. -/
theorem circuitBreaker_closure_law_witness :
    (callN 0 (.error "rpc error") 3 (NewCircuitBreaker 3 2 5)).state = .opened ∧
    ((callN 10 (.ok ()) 2
        (callN 0 (.error "rpc error") 3 (NewCircuitBreaker 3 2 5))).state = .closed ∧
     (callN 10 (.ok ()) 2
        (callN 0 (.error "rpc error") 3 (NewCircuitBreaker 3 2 5))).failures = 0 ∧
     (callN 10 (.ok ()) 2
        (callN 0 (.error "rpc error") 3 (NewCircuitBreaker 3 2 5))).successes = 0) ∧
    (((callN 0 (.error "rpc error") 3 (NewCircuitBreaker 3 2 5)).readState 10).2.state
        = .halfOpen ∧
     ((((callN 0 (.error "rpc error") 3 (NewCircuitBreaker 3 2 5)).readState
        10).2.call 10 (.error "rpc error")).2.2).state = .opened) :=
  circuitBreaker_closure_law 3 2 5 0 10 "rpc error" (by decide) (by decide) (by decide)

/-- C2 counterexample to the claim as stated: with failure threshold 2, a
breaker opened by two failures and moved to HalfOpen by a state read after the
timeout re-opens after a single recorded failure, although only one failure,
fewer than the threshold of two, was recorded since the transition to
HalfOpen. -/
theorem circuitBreaker_halfOpen_single_failure_counterexample :
    ((callN 0 (.error "rpc error") 2 (NewCircuitBreaker 2 1 5)).readState 10).2.state
      = .halfOpen ∧
    ((((callN 0 (.error "rpc error") 2 (NewCircuitBreaker 2 1 5)).readState
      10).2.call 10 (.error "rpc error")).2.2).state = .opened ∧
    (NewCircuitBreaker 2 1 5).failureThreshold = 2 := by decide

/-- Execute on a request passing all five field validations reduces to the
idempotency lookup followed by either the hit return or the fresh path. -/
theorem execute_eq_of_wellFormed (req : ExecuteTransactionRequest) (o : Oracles)
    (repo : List EVMTransaction) (h : requestWellFormed req = true) :
    execute req o repo =
      match getByIdempotencyKey o repo req.idempotencyKey with
      | .ok existingTx => (.ok (buildResponse existingTx), repo, [.lookup req.idempotencyKey])
      | .error _ =>
        let tx0 := markAsProcessing (NewEVMTransaction req.operationID req.chainType
          req.operationType req.fromAddress req.toAddress req.idempotencyKey)
        let fr := executeFresh o tx0 req.operationType req.fromAddress req.toAddress
        (fr.1, replaySaves o.saveOutcomes repo fr.2, [.lookup req.idempotencyKey] ++ fr.2) := by
  have h5 := h
  simp only [requestWellFormed, Bool.and_eq_true] at h5
  obtain ⟨⟨⟨⟨h1, h2⟩, h3⟩, h4⟩, h5⟩ := h5
  unfold execute NewChainType NewOperationType NewOperationID NewEVMAddress
  rw [if_pos h1, if_pos h2, if_pos h3, if_pos h4, if_pos h5]

/-- C5 (amended): malformed operation kinds, operation identifiers and
addresses make Execute return a ValidationFailed-class error with zero
repository writes, while a malformed chain type makes it return a
ChainNotSupported-class error, also with zero repository writes. -/
theorem execute_validation_totality (req : ExecuteTransactionRequest) (o : Oracles)
    (repo : List EVMTransaction) :
    (chainTypeIsValid req.chainType = false →
      execute req o repo =
        (.error ⟨"CHAIN_NOT_SUPPORTED", "invalid chain type: " ++ req.chainType⟩,
         repo, [])) ∧
    (chainTypeIsValid req.chainType = true →
      operationTypeIsValid req.operationType = false →
      execute req o repo =
        (.error ⟨"VALIDATION_FAILED", "invalid operation type: " ++ req.operationType⟩,
         repo, [])) ∧
    (chainTypeIsValid req.chainType = true →
      operationTypeIsValid req.operationType = true →
      isValidOperationID req.operationID = false →
      execute req o repo =
        (.error ⟨"VALIDATION_FAILED", "invalid operation ID: " ++ req.operationID⟩,
         repo, [])) ∧
    (chainTypeIsValid req.chainType = true →
      operationTypeIsValid req.operationType = true →
      isValidOperationID req.operationID = true →
      isValidEVMAddress req.fromAddress = false →
      execute req o repo =
        (.error ⟨"VALIDATION_FAILED", "invalid EVM address: " ++ req.fromAddress⟩,
         repo, [])) ∧
    (chainTypeIsValid req.chainType = true →
      operationTypeIsValid req.operationType = true →
      isValidOperationID req.operationID = true →
      isValidEVMAddress req.fromAddress = true →
      isValidEVMAddress req.toAddress = false →
      execute req o repo =
        (.error ⟨"VALIDATION_FAILED", "invalid EVM address: " ++ req.toAddress⟩,
         repo, [])) := by
  refine ⟨?_, ?_, ?_, ?_, ?_⟩
  · intro h1
    simp [execute, NewChainType, h1]
  · intro h1 h2
    simp [execute, NewChainType, NewOperationType, h1, h2]
  · intro h1 h2 h3
    simp [execute, NewChainType, NewOperationType, NewOperationID, h1, h2, h3]
  · intro h1 h2 h3 h4
    simp [execute, NewChainType, NewOperationType, NewOperationID, NewEVMAddress,
      h1, h2, h3, h4]
  · intro h1 h2 h3 h4 h5
    simp [execute, NewChainType, NewOperationType, NewOperationID, NewEVMAddress,
      h1, h2, h3, h4, h5]

/-- Witness for C5 (amended) at a malformed operation type and at a malformed
sender address. -/
theorem execute_validation_totality_witness :
    execute ⟨"550e8400-e29b-41d4-a716-446655440000", "ETHEREUM", "FOO",
        "0x1234567890123456789012345678901234567890",
        "0x0987654321098765432109876543210987654321", "key-1"⟩
      ⟨false, [], true, true, .ok 0, .ok 0, .ok 0, .ok "", .ok ⟨0, 0⟩⟩ [] =
      (.error ⟨"VALIDATION_FAILED", "invalid operation type: " ++ "FOO"⟩, [], []) ∧
    execute ⟨"550e8400-e29b-41d4-a716-446655440000", "ETHEREUM", "GET_BALANCE",
        "zzz", "0x0987654321098765432109876543210987654321", "key-1"⟩
      ⟨false, [], true, true, .ok 0, .ok 0, .ok 0, .ok "", .ok ⟨0, 0⟩⟩ [] =
      (.error ⟨"VALIDATION_FAILED", "invalid EVM address: " ++ "zzz"⟩, [], []) :=
  ⟨(execute_validation_totality _ _ _).2.1 (by decide) (by decide),
   (execute_validation_totality _ _ _).2.2.2.1 (by decide) (by decide) (by decide)
     (by decide)⟩

/-- C5 counterexample to the claim as stated: a malformed chain type makes
Execute return a ChainNotSupported-class error, not a ValidationFailed-class
error; the repository still receives zero writes. -/
theorem execute_malformed_chain_error_code_counterexample :
    (execute ⟨"550e8400-e29b-41d4-a716-446655440000", "SOLANA", "GET_BALANCE",
        "0x1234567890123456789012345678901234567890",
        "0x0987654321098765432109876543210987654321", "key-1"⟩
      ⟨false, [], true, true, .ok 0, .ok 0, .ok 0, .ok "", .ok ⟨0, 0⟩⟩ []) =
      (.error ⟨"CHAIN_NOT_SUPPORTED", "invalid chain type: SOLANA"⟩, [], []) ∧
    "CHAIN_NOT_SUPPORTED" ≠ "VALIDATION_FAILED" := by decide

/-- Projection lemma. -/
@[simp] theorem markAsProcessing_operationID (t : EVMTransaction) :
    (markAsProcessing t).operationID = t.operationID := rfl

/-- Projection lemma. -/
@[simp] theorem markAsProcessing_idempotencyKey (t : EVMTransaction) :
    (markAsProcessing t).idempotencyKey = t.idempotencyKey := rfl

/-- Projection lemma. -/
@[simp] theorem markAsProcessing_status (t : EVMTransaction) :
    (markAsProcessing t).status = .processing := rfl

/-- Projection lemma. -/
@[simp] theorem markAsSuccess_operationID (t : EVMTransaction) (h : String)
    (bn g : Int) : (markAsSuccess t h bn g).operationID = t.operationID := rfl

/-- Projection lemma. -/
@[simp] theorem markAsSuccess_idempotencyKey (t : EVMTransaction) (h : String)
    (bn g : Int) : (markAsSuccess t h bn g).idempotencyKey = t.idempotencyKey := rfl

/-- Projection lemma. -/
@[simp] theorem markAsSuccess_status (t : EVMTransaction) (h : String)
    (bn g : Int) : (markAsSuccess t h bn g).status = .success := rfl

/-- Projection lemma. -/
@[simp] theorem markAsSuccess_txHash (t : EVMTransaction) (h : String)
    (bn g : Int) : (markAsSuccess t h bn g).txHash = h := rfl

/-- Projection lemma. -/
@[simp] theorem markAsFailed_operationID (t : EVMTransaction) (m : String) :
    (markAsFailed t m).operationID = t.operationID := rfl

/-- Projection lemma. -/
@[simp] theorem markAsFailed_idempotencyKey (t : EVMTransaction) (m : String) :
    (markAsFailed t m).idempotencyKey = t.idempotencyKey := rfl

/-- Projection lemma. -/
@[simp] theorem markAsFailed_status (t : EVMTransaction) (m : String) :
    (markAsFailed t m).status = .failed := rfl

/-- Projection lemma. -/
@[simp] theorem markAsConfirmed_txHash (t : EVMTransaction) :
    (markAsConfirmed t).txHash = t.txHash := rfl

/-- Projection lemma. -/
@[simp] theorem setTxMetadata_operationID (t : EVMTransaction) (g : String)
    (n : Int) : (setTxMetadata t g n).operationID = t.operationID := rfl

/-- Projection lemma. -/
@[simp] theorem setTxMetadata_idempotencyKey (t : EVMTransaction) (g : String)
    (n : Int) : (setTxMetadata t g n).idempotencyKey = t.idempotencyKey := rfl

/-- Projection lemma. -/
@[simp] theorem NewEVMTransaction_operationID (a b c d e k : String) :
    (NewEVMTransaction a b c d e k).operationID = a := rfl

/-- Projection lemma. -/
@[simp] theorem NewEVMTransaction_idempotencyKey (a b c d e k : String) :
    (NewEVMTransaction a b c d e k).idempotencyKey = k := rfl

/-- Dispatch in the successful case: the transaction keeps its operation
identifier and idempotency key, is marked Success, and no Save effect occurs
among the dispatch effects. -/
theorem dispatch_inl (operationType fromAddr toAddr : String) (o : Oracles)
    (tx txDone : EVMTransaction) (eff : List Effect)
    (h : dispatch operationType fromAddr toAddr o tx = (.inl txDone, eff)) :
    txDone.operationID = tx.operationID ∧
    txDone.idempotencyKey = tx.idempotencyKey ∧
    txDone.status = .success ∧
    ∀ ef ∈ eff, ef.isSave = false := by
  unfold dispatch at h
  by_cases hw : isWriteOperation operationType = true
  · rw [if_pos hw] at h
    by_cases hs : o.signerConfigured = false
    · rw [if_pos hs] at h
      simp at h
    · rw [if_neg hs] at h
      cases hn : o.nonceResult with
      | error e => rw [hn] at h; simp at h
      | ok n =>
        rw [hn] at h
        cases hg : o.gasPriceResult with
        | error e => rw [hg] at h; simp at h
        | ok g =>
          rw [hg] at h
          cases hsr : o.signResult with
          | error e => rw [hsr] at h; simp at h
          | ok hs =>
            rw [hsr] at h
            cases hwr : o.waitResult with
            | error e => rw [hwr] at h; simp at h
            | ok rc =>
              rw [hwr] at h
              obtain ⟨h1, h2⟩ := Prod.mk.injEq .. ▸ h
              obtain rfl := Sum.inl.injEq .. ▸ h1
              subst h2
              refine ⟨by simp, by simp, by simp, ?_⟩
              intro ef hef
              simp only [List.mem_cons, List.mem_singleton] at hef
              rcases hef with rfl | rfl | rfl | rfl | hfalse
              · rfl
              · rfl
              · rfl
              · rfl
              · simp at hfalse
  · rw [if_neg hw] at h
    by_cases hb : (operationType == "GET_BALANCE") = true
    · rw [if_pos hb] at h
      cases hba : o.balanceResult with
      | error e => rw [hba] at h; simp at h
      | ok b =>
        rw [hba] at h
        obtain ⟨h1, h2⟩ := Prod.mk.injEq .. ▸ h
        obtain rfl := Sum.inl.injEq .. ▸ h1
        subst h2
        refine ⟨by simp, by simp, by simp, ?_⟩
        intro ef hef
        simp only [List.mem_singleton] at hef
        subst hef
        rfl
    · rw [if_neg hb] at h
      by_cases hgn : (operationType == "GET_NONCE") = true
      · rw [if_pos hgn] at h
        cases hn : o.nonceResult with
        | error e => rw [hn] at h; simp at h
        | ok n =>
          rw [hn] at h
          obtain ⟨h1, h2⟩ := Prod.mk.injEq .. ▸ h
          obtain rfl := Sum.inl.injEq .. ▸ h1
          subst h2
          refine ⟨by simp, by simp, by simp, ?_⟩
          intro ef hef
          simp only [List.mem_singleton] at hef
          subst hef
          rfl
      · rw [if_neg hgn] at h
        obtain ⟨h1, h2⟩ := Prod.mk.injEq .. ▸ h
        obtain rfl := Sum.inl.injEq .. ▸ h1
        subst h2
        exact ⟨by simp, by simp, by simp, by intro ef hef; simp at hef⟩

/-- Dispatch in the failure case: no Save effect occurs among the dispatch
effects and the application error is of the ValidationFailed or RPCFailed
class, never of the DatabaseError class. -/
theorem dispatch_inr (operationType fromAddr toAddr : String) (o : Oracles)
    (tx : EVMTransaction) (f : DispatchFailure) (eff : List Effect)
    (h : dispatch operationType fromAddr toAddr o tx = (.inr f, eff)) :
    (∀ ef ∈ eff, ef.isSave = false) ∧
    (f.appError.code = "VALIDATION_FAILED" ∨ f.appError.code = "RPC_FAILED") := by
  unfold dispatch at h
  by_cases hw : isWriteOperation operationType = true
  · rw [if_pos hw] at h
    by_cases hs : o.signerConfigured = false
    · rw [if_pos hs] at h
      obtain ⟨h1, h2⟩ := Prod.mk.injEq .. ▸ h
      obtain rfl := Sum.inr.injEq .. ▸ h1
      subst h2
      exact ⟨by intro ef hef; simp at hef, Or.inl rfl⟩
    · rw [if_neg hs] at h
      cases hn : o.nonceResult with
      | error e =>
        rw [hn] at h
        obtain ⟨h1, h2⟩ := Prod.mk.injEq .. ▸ h
        obtain rfl := Sum.inr.injEq .. ▸ h1
        subst h2
        refine ⟨?_, Or.inr rfl⟩
        intro ef hef
        simp only [List.mem_singleton] at hef
        subst hef
        rfl
      | ok n =>
        rw [hn] at h
        cases hg : o.gasPriceResult with
        | error e =>
          rw [hg] at h
          obtain ⟨h1, h2⟩ := Prod.mk.injEq .. ▸ h
          obtain rfl := Sum.inr.injEq .. ▸ h1
          subst h2
          refine ⟨?_, Or.inr rfl⟩
          intro ef hef
          simp only [List.mem_cons, List.mem_singleton] at hef
          rcases hef with rfl | rfl | hfalse
          · rfl
          · rfl
          · simp at hfalse
        | ok g =>
          rw [hg] at h
          cases hsr : o.signResult with
          | error e =>
            rw [hsr] at h
            obtain ⟨h1, h2⟩ := Prod.mk.injEq .. ▸ h
            obtain rfl := Sum.inr.injEq .. ▸ h1
            subst h2
            refine ⟨?_, Or.inr rfl⟩
            intro ef hef
            simp only [List.mem_cons, List.mem_singleton] at hef
            rcases hef with rfl | rfl | rfl | hfalse
            · rfl
            · rfl
            · rfl
            · simp at hfalse
          | ok hstr =>
            rw [hsr] at h
            cases hwr : o.waitResult with
            | error e =>
              rw [hwr] at h
              obtain ⟨h1, h2⟩ := Prod.mk.injEq .. ▸ h
              obtain rfl := Sum.inr.injEq .. ▸ h1
              subst h2
              refine ⟨?_, Or.inr rfl⟩
              intro ef hef
              simp only [List.mem_cons, List.mem_singleton] at hef
              rcases hef with rfl | rfl | rfl | rfl | hfalse
              · rfl
              · rfl
              · rfl
              · rfl
              · simp at hfalse
            | ok rc =>
              rw [hwr] at h
              simp at h
  · rw [if_neg hw] at h
    by_cases hb : (operationType == "GET_BALANCE") = true
    · rw [if_pos hb] at h
      cases hba : o.balanceResult with
      | error e =>
        rw [hba] at h
        obtain ⟨h1, h2⟩ := Prod.mk.injEq .. ▸ h
        obtain rfl := Sum.inr.injEq .. ▸ h1
        subst h2
        refine ⟨?_, Or.inr rfl⟩
        intro ef hef
        simp only [List.mem_singleton] at hef
        subst hef
        rfl
      | ok b => rw [hba] at h; simp at h
    · rw [if_neg hb] at h
      by_cases hgn : (operationType == "GET_NONCE") = true
      · rw [if_pos hgn] at h
        cases hn : o.nonceResult with
        | error e =>
          rw [hn] at h
          obtain ⟨h1, h2⟩ := Prod.mk.injEq .. ▸ h
          obtain rfl := Sum.inr.injEq .. ▸ h1
          subst h2
          refine ⟨?_, Or.inr rfl⟩
          intro ef hef
          simp only [List.mem_singleton] at hef
          subst hef
          rfl
        | ok n => rw [hn] at h; simp at h
      · rw [if_neg hgn] at h
        simp at h

/-- Dispatch of a read operation in the successful case marks the transaction
Success with an empty hash, zero block number and zero gas. -/
theorem dispatch_read_inl (operationType fromAddr toAddr : String) (o : Oracles)
    (tx txDone : EVMTransaction) (eff : List Effect)
    (hread : isWriteOperation operationType = false)
    (h : dispatch operationType fromAddr toAddr o tx = (.inl txDone, eff)) :
    txDone = markAsSuccess tx "" 0 0 := by
  unfold dispatch at h
  rw [if_neg (by simp [hread])] at h
  by_cases hb : (operationType == "GET_BALANCE") = true
  · rw [if_pos hb] at h
    cases hba : o.balanceResult with
    | error e => rw [hba] at h; simp at h
    | ok b =>
      rw [hba] at h
      obtain ⟨h1, h2⟩ := Prod.mk.injEq .. ▸ h
      exact (Sum.inl.injEq .. ▸ h1).symm
  · rw [if_neg hb] at h
    by_cases hgn : (operationType == "GET_NONCE") = true
    · rw [if_pos hgn] at h
      cases hn : o.nonceResult with
      | error e => rw [hn] at h; simp at h
      | ok n =>
        rw [hn] at h
        obtain ⟨h1, h2⟩ := Prod.mk.injEq .. ▸ h
        exact (Sum.inl.injEq .. ▸ h1).symm
    · rw [if_neg hgn] at h
      obtain ⟨h1, h2⟩ := Prod.mk.injEq .. ▸ h
      exact (Sum.inl.injEq .. ▸ h1).symm

/-- Dispatch of a write operation with a configured signer and successful
nonce, gas-price, signing and confirmation calls: metadata is attached, the
transaction is marked Success with the validated hash and the receipt data,
and the four RPC effects are performed in order. -/
theorem dispatch_write_ok (operationType fromAddr toAddr : String) (o : Oracles)
    (tx : EVMTransaction) (n g : Nat) (hstr : String) (rc : Receipt)
    (hw : isWriteOperation operationType = true)
    (hsc : o.signerConfigured = true)
    (hn : o.nonceResult = .ok n) (hg : o.gasPriceResult = .ok g)
    (hsr : o.signResult = .ok hstr) (hwr : o.waitResult = .ok rc) :
    dispatch operationType fromAddr toAddr o tx =
      (.inl (markAsSuccess (setTxMetadata tx (toString g) (n : Int))
        (match NewTransactionHash hstr with
         | .ok h => h
         | .error _ => "")
        (rc.blockNumber : Int) (rc.gasUsed : Int)),
       [.rpcGetNonce fromAddr, .rpcGetGasPrice, .signAndSend,
        .waitConfirmations hstr 12]) := by
  unfold dispatch
  rw [if_pos hw, if_neg (by simp [hsc]), hn, hg, hsr, hwr]

/-- Inversion of a successful fresh execution: both persists succeeded, an RPC
client was present, dispatch succeeded, the response is built from the final
transaction, and the trace is the initial persist, the dispatch effects and
the final persist. -/
theorem executeFresh_ok (o : Oracles) (tx0 : EVMTransaction)
    (operationType fromAddr toAddr : String)
    (r : ExecuteTransactionResponse) (tr : List Effect)
    (h : executeFresh o tx0 operationType fromAddr toAddr = (.ok r, tr)) :
    o.saveOutcomes.headD true = true ∧
    (o.saveOutcomes.drop 1).headD true = true ∧
    o.hasClient = true ∧
    ∃ txDone eff, dispatch operationType fromAddr toAddr o tx0 = (.inl txDone, eff) ∧
      r = buildResponse txDone ∧
      tr = [.save tx0] ++ eff ++ [.save txDone] := by
  unfold executeFresh at h
  by_cases h1 : o.saveOutcomes.headD true = false
  · rw [if_pos h1] at h
    simp at h
  · rw [if_neg h1] at h
    by_cases h2 : o.hasClient = false
    · rw [if_pos h2] at h
      simp at h
    · rw [if_neg h2] at h
      rcases hd : dispatch operationType fromAddr toAddr o tx0 with ⟨res, eff⟩
      rw [hd] at h
      cases res with
      | inr f => simp at h
      | inl txDone =>
        dsimp only at h
        by_cases h3 : (o.saveOutcomes.drop 1).headD true = false
        · rw [if_pos h3] at h
          simp at h
        · rw [if_neg h3] at h
          obtain ⟨hr, htr⟩ := Prod.mk.injEq .. ▸ h
          refine ⟨by revert h1; cases o.saveOutcomes.headD true <;> simp,
            by revert h3; cases (o.saveOutcomes.drop 1).headD true <;> simp,
            by revert h2; cases o.hasClient <;> simp,
            txDone, eff, rfl, (Except.ok.injEq .. ▸ hr).symm, htr.symm⟩

/-- Inversion of a failed fresh execution into the four failure shapes: initial
persist failure, missing RPC client, dispatch failure with its failed-marked
persist, or failure of the final persist of a dispatched transaction. -/
theorem executeFresh_error (o : Oracles) (tx0 : EVMTransaction)
    (operationType fromAddr toAddr : String) (e : AppError) (tr : List Effect)
    (h : executeFresh o tx0 operationType fromAddr toAddr = (.error e, tr)) :
    (e = ⟨"DATABASE_ERROR", "failed to save transaction"⟩ ∧
      tr = [.save tx0, .save (markAsFailed tx0 "database error")]) ∨
    (e = ⟨"CHAIN_NOT_SUPPORTED", "chain not supported"⟩ ∧
      tr = [.save tx0, .save (markAsFailed tx0 "RPC client not found")]) ∨
    (∃ f eff, dispatch operationType fromAddr toAddr o tx0 = (.inr f, eff) ∧
      e = f.appError ∧
      tr = [.save tx0] ++ eff ++ [.save (markAsFailed f.tx f.failMessage)]) ∨
    (e = ⟨"DATABASE_ERROR", "failed to update transaction"⟩ ∧
      ∃ txDone eff, dispatch operationType fromAddr toAddr o tx0 = (.inl txDone, eff) ∧
        tr = [.save tx0] ++ eff ++ [.save txDone]) := by
  unfold executeFresh at h
  by_cases h1 : o.saveOutcomes.headD true = false
  · rw [if_pos h1] at h
    obtain ⟨he, htr⟩ := Prod.mk.injEq .. ▸ h
    exact Or.inl ⟨(Except.error.injEq .. ▸ he).symm, htr.symm⟩
  · rw [if_neg h1] at h
    by_cases h2 : o.hasClient = false
    · rw [if_pos h2] at h
      obtain ⟨he, htr⟩ := Prod.mk.injEq .. ▸ h
      exact Or.inr (Or.inl ⟨(Except.error.injEq .. ▸ he).symm, htr.symm⟩)
    · rw [if_neg h2] at h
      rcases hd : dispatch operationType fromAddr toAddr o tx0 with ⟨res, eff⟩
      rw [hd] at h
      cases res with
      | inr f =>
        dsimp only at h
        obtain ⟨he, htr⟩ := Prod.mk.injEq .. ▸ h
        exact Or.inr (Or.inr (Or.inl ⟨f, eff, rfl,
          (Except.error.injEq .. ▸ he).symm, htr.symm⟩))
      | inl txDone =>
        dsimp only at h
        by_cases h3 : (o.saveOutcomes.drop 1).headD true = false
        · rw [if_pos h3] at h
          obtain ⟨he, htr⟩ := Prod.mk.injEq .. ▸ h
          exact Or.inr (Or.inr (Or.inr ⟨(Except.error.injEq .. ▸ he).symm,
            txDone, eff, rfl, htr.symm⟩))
        · rw [if_neg h3] at h
          simp at h

/-- The trace of any fresh execution starts with the persist of the Processing
transaction. -/
theorem executeFresh_trace_head (o : Oracles) (tx0 : EVMTransaction)
    (operationType fromAddr toAddr : String) :
    ∃ rest, (executeFresh o tx0 operationType fromAddr toAddr).2 = .save tx0 :: rest := by
  unfold executeFresh
  by_cases h1 : o.saveOutcomes.headD true = false
  · rw [if_pos h1]
    exact ⟨_, rfl⟩
  · rw [if_neg h1]
    by_cases h2 : o.hasClient = false
    · rw [if_pos h2]
      exact ⟨_, rfl⟩
    · rw [if_neg h2]
      rcases hd : dispatch operationType fromAddr toAddr o tx0 with ⟨res, eff⟩
      cases res with
      | inr f => exact ⟨_, rfl⟩
      | inl txDone =>
        dsimp only
        by_cases h3 : (o.saveOutcomes.drop 1).headD true = false
        · rw [if_pos h3]
          exact ⟨_, rfl⟩
        · rw [if_neg h3]
          exact ⟨_, rfl⟩

/-- Replay equation. -/
@[simp] theorem replaySaves_nil (outcomes : List Bool) (repo : List EVMTransaction) :
    replaySaves outcomes repo [] = repo := rfl

/-- Replay equation. -/
@[simp] theorem replaySaves_save (outcomes : List Bool) (repo : List EVMTransaction)
    (tx : EVMTransaction) (rest : List Effect) :
    replaySaves outcomes repo (.save tx :: rest) =
      if outcomes.headD true then replaySaves (outcomes.drop 1) (upsert repo tx) rest
      else replaySaves (outcomes.drop 1) repo rest := rfl

/-- Replay equation. -/
@[simp] theorem replaySaves_lookup (outcomes : List Bool) (repo : List EVMTransaction)
    (k : String) (rest : List Effect) :
    replaySaves outcomes repo (.lookup k :: rest) = replaySaves outcomes repo rest := rfl

/-- Replay equation. -/
@[simp] theorem replaySaves_rpcGetNonce (outcomes : List Bool)
    (repo : List EVMTransaction) (a : String) (rest : List Effect) :
    replaySaves outcomes repo (.rpcGetNonce a :: rest) = replaySaves outcomes repo rest := rfl

/-- Replay equation. -/
@[simp] theorem replaySaves_rpcGetGasPrice (outcomes : List Bool)
    (repo : List EVMTransaction) (rest : List Effect) :
    replaySaves outcomes repo (.rpcGetGasPrice :: rest) = replaySaves outcomes repo rest := rfl

/-- Replay equation. -/
@[simp] theorem replaySaves_rpcGetBalance (outcomes : List Bool)
    (repo : List EVMTransaction) (a : String) (rest : List Effect) :
    replaySaves outcomes repo (.rpcGetBalance a :: rest) = replaySaves outcomes repo rest := rfl

/-- Replay equation. -/
@[simp] theorem replaySaves_signAndSend (outcomes : List Bool)
    (repo : List EVMTransaction) (rest : List Effect) :
    replaySaves outcomes repo (.signAndSend :: rest) = replaySaves outcomes repo rest := rfl

/-- Replay equation. -/
@[simp] theorem replaySaves_waitConfirmations (outcomes : List Bool)
    (repo : List EVMTransaction) (hsh : String) (n : Nat) (rest : List Effect) :
    replaySaves outcomes repo (.waitConfirmations hsh n :: rest) =
      replaySaves outcomes repo rest := rfl

/-- Replaying a run of non-Save effects leaves the store and the remaining
outcomes untouched. -/
theorem replaySaves_append_nonsave (outcomes : List Bool) (repo : List EVMTransaction)
    (eff rest : List Effect) (h : ∀ ef ∈ eff, ef.isSave = false) :
    replaySaves outcomes repo (eff ++ rest) = replaySaves outcomes repo rest := by
  induction eff with
  | nil => rfl
  | cons e es ih =>
    have he := h e (List.mem_cons_self _ _)
    have hes : ∀ ef ∈ es, ef.isSave = false :=
      fun ef hef => h ef (List.mem_cons_of_mem _ hef)
    cases e with
    | save tx => simp [Effect.isSave] at he
    | lookup k => rw [List.cons_append, replaySaves_lookup]; exact ih hes
    | rpcGetNonce a => rw [List.cons_append, replaySaves_rpcGetNonce]; exact ih hes
    | rpcGetGasPrice => rw [List.cons_append, replaySaves_rpcGetGasPrice]; exact ih hes
    | rpcGetBalance a => rw [List.cons_append, replaySaves_rpcGetBalance]; exact ih hes
    | signAndSend => rw [List.cons_append, replaySaves_signAndSend]; exact ih hes
    | waitConfirmations hsh n =>
      rw [List.cons_append, replaySaves_waitConfirmations]; exact ih hes

/-- The last Save of a trace ending in a Save is that Save. -/
theorem lastSave_append_save (l : List Effect) (tx : EVMTransaction) :
    lastSave (l ++ [.save tx]) = some tx := by
  unfold lastSave
  rw [List.foldl_append]
  rfl

/-- The written transaction is a member of the store after an upsert. -/
theorem mem_upsert_self (repo : List EVMTransaction) (tx : EVMTransaction) :
    tx ∈ upsert repo tx := by
  unfold upsert
  by_cases h : repo.any (fun t => t.operationID == tx.operationID) = true
  · rw [if_pos h]
    obtain ⟨u, hu, hmatch⟩ := List.any_eq_true.mp h
    exact List.mem_map.mpr ⟨u, hu, by rw [if_pos hmatch]⟩
  · rw [if_neg h]
    exact List.mem_append_right _ (List.mem_singleton_self tx)

/-- Members of an upserted store are the written transaction or prior members
with a different operation identifier. -/
theorem mem_upsert (repo : List EVMTransaction) (a t : EVMTransaction)
    (h : t ∈ upsert repo a) :
    t = a ∨ (t ∈ repo ∧ (t.operationID == a.operationID) = false) := by
  unfold upsert at h
  by_cases hc : repo.any (fun t => t.operationID == a.operationID) = true
  · rw [if_pos hc] at h
    obtain ⟨u, hu, hut⟩ := List.mem_map.mp h
    by_cases hm : (u.operationID == a.operationID) = true
    · rw [if_pos hm] at hut
      exact Or.inl hut.symm
    · rw [if_neg hm] at hut
      subst hut
      exact Or.inr ⟨hu, by simpa using hm⟩
  · rw [if_neg hc] at h
    rcases List.mem_append.mp h with hin | hin
    · refine Or.inr ⟨hin, ?_⟩
      by_contra hne
      exact hc (List.any_eq_true.mpr ⟨t, hin, by simpa using hne⟩)
    · rw [List.mem_singleton] at hin
      exact Or.inl hin

/-- A membership with a unique satisfier pins down the result of find?. -/
theorem find?_unique {α : Type} (p : α → Bool) (a : α) :
    ∀ (l : List α), a ∈ l → p a = true → (∀ t ∈ l, p t = true → t = a) →
      l.find? p = some a := by
  intro l
  induction l with
  | nil =>
    intro h
    exact absurd h (List.not_mem_nil a)
  | cons x xs ih =>
    intro hmem hpa huniq
    by_cases hx : p x = true
    · rw [List.find?_cons_of_pos _ hx, huniq x (List.mem_cons_self _ _) hx]
    · rw [List.find?_cons_of_neg _ hx]
      refine ih ?_ hpa fun t ht hpt => huniq t (List.mem_cons_of_mem _ ht) hpt
      rcases List.mem_cons.mp hmem with rfl | hmm
      · exact absurd hpa hx
      · exact hmm

/-- A successful idempotency lookup means the query did not fail, the store
holds an item under the key, and that item unmarshals to the returned
transaction. -/
theorem getByIdempotencyKey_ok (o : Oracles) (repo : List EVMTransaction)
    (key : String) (tx : EVMTransaction)
    (h : getByIdempotencyKey o repo key = .ok tx) :
    o.lookupFails = false ∧
    ∃ stored, repo.find? (fun t => t.idempotencyKey == key) = some stored ∧
      unmarshalTransactionItem (toTransactionItem stored) = .ok tx := by
  unfold getByIdempotencyKey at h
  by_cases hf : o.lookupFails = true
  · rw [if_pos hf] at h
    cases h
  · rw [if_neg hf] at h
    refine ⟨by revert hf; cases o.lookupFails <;> simp, ?_⟩
    cases hfind : repo.find? (fun t => t.idempotencyKey == key) with
    | some stored =>
      rw [hfind] at h
      exact ⟨stored, rfl, h⟩
    | none =>
      rw [hfind] at h
      cases h

/-- A failed idempotency lookup with a working store means the key is absent
or the stored item does not unmarshal. -/
theorem getByIdempotencyKey_error (o : Oracles) (repo : List EVMTransaction)
    (key msg : String) (hlf : o.lookupFails = false)
    (h : getByIdempotencyKey o repo key = .error msg) :
    repo.find? (fun t => t.idempotencyKey == key) = none ∨
    ∃ stored, repo.find? (fun t => t.idempotencyKey == key) = some stored ∧
      unmarshalTransactionItem (toTransactionItem stored) = .error msg := by
  unfold getByIdempotencyKey at h
  rw [if_neg (by simp [hlf])] at h
  cases hfind : repo.find? (fun t => t.idempotencyKey == key) with
  | none => exact Or.inl rfl
  | some stored =>
    rw [hfind] at h
    exact Or.inr ⟨stored, rfl, h⟩

/-- Validator inversion. -/
theorem NewChainType_ok_eq (v ct : String) (h : NewChainType v = .ok ct) : ct = v := by
  unfold NewChainType at h
  by_cases hv : chainTypeIsValid v = true
  · rw [if_pos hv] at h
    injection h with h2
    exact h2.symm
  · rw [if_neg hv] at h
    cases h

/-- Validator inversion. -/
theorem NewOperationType_ok_eq (v ot : String) (h : NewOperationType v = .ok ot) :
    ot = v := by
  unfold NewOperationType at h
  by_cases hv : operationTypeIsValid v = true
  · rw [if_pos hv] at h
    injection h with h2
    exact h2.symm
  · rw [if_neg hv] at h
    cases h

/-- Validator inversion. -/
theorem NewOperationID_ok_eq (v oid : String) (h : NewOperationID v = .ok oid) :
    oid = v := by
  unfold NewOperationID at h
  by_cases hv : isValidOperationID v = true
  · rw [if_pos hv] at h
    injection h with h2
    exact h2.symm
  · rw [if_neg hv] at h
    cases h

/-- Validator inversion. -/
theorem NewEVMAddress_ok_eq (v a : String) (h : NewEVMAddress v = .ok a) : a = v := by
  unfold NewEVMAddress at h
  by_cases hv : isValidEVMAddress v = true
  · rw [if_pos hv] at h
    injection h with h2
    exact h2.symm
  · rw [if_neg hv] at h
    cases h

/-- A well-formed transaction hash string is non-empty. -/
theorem isValidTransactionHash_ne_empty (v : String)
    (h : isValidTransactionHash v = true) : v ≠ "" := by
  intro he
  subst he
  exact absurd h (by decide)

/-- Validator positivity. -/
theorem NewChainType_ok_valid (v ct : String) (h : NewChainType v = .ok ct) :
    chainTypeIsValid v = true := by
  unfold NewChainType at h
  by_cases hv : chainTypeIsValid v = true
  · exact hv
  · rw [if_neg hv] at h
    cases h

/-- Validator positivity. -/
theorem NewOperationType_ok_valid (v ot : String) (h : NewOperationType v = .ok ot) :
    operationTypeIsValid v = true := by
  unfold NewOperationType at h
  by_cases hv : operationTypeIsValid v = true
  · exact hv
  · rw [if_neg hv] at h
    cases h

/-- Validator positivity. -/
theorem NewOperationID_ok_valid (v oid : String) (h : NewOperationID v = .ok oid) :
    isValidOperationID v = true := by
  unfold NewOperationID at h
  by_cases hv : isValidOperationID v = true
  · exact hv
  · rw [if_neg hv] at h
    cases h

/-- Validator positivity. -/
theorem NewEVMAddress_ok_valid (v a : String) (h : NewEVMAddress v = .ok a) :
    isValidEVMAddress v = true := by
  unfold NewEVMAddress at h
  by_cases hv : isValidEVMAddress v = true
  · exact hv
  · rw [if_neg hv] at h
    cases h

/-- Validator positivity: a hash accepted by the constructor is well-formed. -/
theorem NewTransactionHash_ok_valid (v hs : String)
    (h : NewTransactionHash v = .ok hs) : isValidTransactionHash hs = true := by
  unfold NewTransactionHash at h
  by_cases hv : isValidTransactionHash v = true
  · rw [if_pos hv] at h
    injection h with h2
    rw [← h2]
    exact hv
  · rw [if_neg hv] at h
    cases h

/-- Projection lemma. -/
@[simp] theorem NewEVMTransaction_chainType (a b c d e k : String) :
    (NewEVMTransaction a b c d e k).chainType = b := rfl

/-- Projection lemma. -/
@[simp] theorem NewEVMTransaction_operationType (a b c d e k : String) :
    (NewEVMTransaction a b c d e k).operationType = c := rfl

/-- Projection lemma. -/
@[simp] theorem NewEVMTransaction_fromAddress (a b c d e k : String) :
    (NewEVMTransaction a b c d e k).fromAddress = d := rfl

/-- Projection lemma. -/
@[simp] theorem NewEVMTransaction_toAddress (a b c d e k : String) :
    (NewEVMTransaction a b c d e k).toAddress = e := rfl

/-- Projection lemma. -/
@[simp] theorem NewEVMTransaction_txHash (a b c d e k : String) :
    (NewEVMTransaction a b c d e k).txHash = "" := rfl

/-- Projection lemma. -/
@[simp] theorem markAsProcessing_chainType (t : EVMTransaction) :
    (markAsProcessing t).chainType = t.chainType := rfl

/-- Projection lemma. -/
@[simp] theorem markAsProcessing_operationType (t : EVMTransaction) :
    (markAsProcessing t).operationType = t.operationType := rfl

/-- Projection lemma. -/
@[simp] theorem markAsProcessing_fromAddress (t : EVMTransaction) :
    (markAsProcessing t).fromAddress = t.fromAddress := rfl

/-- Projection lemma. -/
@[simp] theorem markAsProcessing_toAddress (t : EVMTransaction) :
    (markAsProcessing t).toAddress = t.toAddress := rfl

/-- Projection lemma. -/
@[simp] theorem markAsSuccess_chainType (t : EVMTransaction) (h : String)
    (bn g : Int) : (markAsSuccess t h bn g).chainType = t.chainType := rfl

/-- Projection lemma. -/
@[simp] theorem markAsSuccess_operationType (t : EVMTransaction) (h : String)
    (bn g : Int) : (markAsSuccess t h bn g).operationType = t.operationType := rfl

/-- Projection lemma. -/
@[simp] theorem markAsSuccess_fromAddress (t : EVMTransaction) (h : String)
    (bn g : Int) : (markAsSuccess t h bn g).fromAddress = t.fromAddress := rfl

/-- Projection lemma. -/
@[simp] theorem markAsSuccess_toAddress (t : EVMTransaction) (h : String)
    (bn g : Int) : (markAsSuccess t h bn g).toAddress = t.toAddress := rfl

/-- Projection lemma. -/
@[simp] theorem setTxMetadata_chainType (t : EVMTransaction) (g : String)
    (n : Int) : (setTxMetadata t g n).chainType = t.chainType := rfl

/-- Projection lemma. -/
@[simp] theorem setTxMetadata_operationType (t : EVMTransaction) (g : String)
    (n : Int) : (setTxMetadata t g n).operationType = t.operationType := rfl

/-- Projection lemma. -/
@[simp] theorem setTxMetadata_fromAddress (t : EVMTransaction) (g : String)
    (n : Int) : (setTxMetadata t g n).fromAddress = t.fromAddress := rfl

/-- Projection lemma. -/
@[simp] theorem setTxMetadata_toAddress (t : EVMTransaction) (g : String)
    (n : Int) : (setTxMetadata t g n).toAddress = t.toAddress := rfl

/-- Dispatch in the successful case also preserves the chain, operation kind
and address fields, and yields a hash that is empty or well-formed: the write
path stores the validated signer hash or the empty string on a parse failure,
the read path the empty string. -/
theorem dispatch_inl_fields (operationType fromAddr toAddr : String) (o : Oracles)
    (tx txDone : EVMTransaction) (eff : List Effect)
    (h : dispatch operationType fromAddr toAddr o tx = (.inl txDone, eff)) :
    txDone.chainType = tx.chainType ∧ txDone.operationType = tx.operationType ∧
    txDone.fromAddress = tx.fromAddress ∧ txDone.toAddress = tx.toAddress ∧
    (txDone.txHash = "" ∨ isValidTransactionHash txDone.txHash = true) := by
  unfold dispatch at h
  by_cases hw : isWriteOperation operationType = true
  · rw [if_pos hw] at h
    by_cases hs : o.signerConfigured = false
    · rw [if_pos hs] at h
      simp at h
    · rw [if_neg hs] at h
      cases hn : o.nonceResult with
      | error e => rw [hn] at h; simp at h
      | ok n =>
        rw [hn] at h
        cases hg : o.gasPriceResult with
        | error e => rw [hg] at h; simp at h
        | ok g =>
          rw [hg] at h
          cases hsr : o.signResult with
          | error e => rw [hsr] at h; simp at h
          | ok hstr =>
            rw [hsr] at h
            cases hwr : o.waitResult with
            | error e => rw [hwr] at h; simp at h
            | ok rc =>
              rw [hwr] at h
              obtain ⟨h1, -⟩ := Prod.mk.injEq .. ▸ h
              obtain rfl := Sum.inl.injEq .. ▸ h1
              refine ⟨by simp, by simp, by simp, by simp, ?_⟩
              cases hnh : NewTransactionHash hstr with
              | ok h2 =>
                right
                rw [markAsSuccess_txHash]
                exact NewTransactionHash_ok_valid hstr h2 hnh
              | error e =>
                left
                rw [markAsSuccess_txHash]
  · rw [if_neg hw] at h
    by_cases hb : (operationType == "GET_BALANCE") = true
    · rw [if_pos hb] at h
      cases hba : o.balanceResult with
      | error e => rw [hba] at h; simp at h
      | ok b =>
        rw [hba] at h
        obtain ⟨h1, -⟩ := Prod.mk.injEq .. ▸ h
        obtain rfl := Sum.inl.injEq .. ▸ h1
        exact ⟨by simp, by simp, by simp, by simp, Or.inl rfl⟩
    · rw [if_neg hb] at h
      by_cases hgn : (operationType == "GET_NONCE") = true
      · rw [if_pos hgn] at h
        cases hn : o.nonceResult with
        | error e => rw [hn] at h; simp at h
        | ok n =>
          rw [hn] at h
          obtain ⟨h1, -⟩ := Prod.mk.injEq .. ▸ h
          obtain rfl := Sum.inl.injEq .. ▸ h1
          exact ⟨by simp, by simp, by simp, by simp, Or.inl rfl⟩
      · rw [if_neg hgn] at h
        obtain ⟨h1, -⟩ := Prod.mk.injEq .. ▸ h
        obtain rfl := Sum.inl.injEq .. ▸ h1
        exact ⟨by simp, by simp, by simp, by simp, Or.inl rfl⟩

/-- A well-formed stored entity survives the repository marshal and unmarshal
round trip without error, whatever its status. -/
theorem unmarshal_toItem_ok (tx : EVMTransaction)
    (hs : storedWellFormed tx = true) :
    ∃ u, unmarshalTransactionItem (toTransactionItem tx) = .ok u := by
  have hs2 := hs
  simp only [storedWellFormed, Bool.and_eq_true] at hs2
  obtain ⟨⟨⟨⟨hi, hc⟩, ho⟩, hf⟩, ht⟩ := hs2
  unfold unmarshalTransactionItem toTransactionItem
  dsimp only
  rw [show NewOperationID tx.operationID = .ok tx.operationID from by
    unfold NewOperationID; rw [if_pos hi]]
  rw [show NewChainType tx.chainType = .ok tx.chainType from by
    unfold NewChainType; rw [if_pos hc]]
  rw [show NewOperationType tx.operationType = .ok tx.operationType from by
    unfold NewOperationType; rw [if_pos ho]]
  rw [show NewEVMAddress tx.fromAddress = .ok tx.fromAddress from by
    unfold NewEVMAddress; rw [if_pos hf]]
  rw [show NewEVMAddress tx.toAddress = .ok tx.toAddress from by
    unfold NewEVMAddress; rw [if_pos ht]]
  dsimp only
  by_cases h1 : (statusString tx.status == "PROCESSING") = true
  · rw [if_pos h1]
    exact ⟨_, rfl⟩
  · rw [if_neg h1]
    by_cases h2 : (statusString tx.status == "SUCCESS") = true
    · rw [if_pos h2]
      by_cases h3 : (tx.txHash == "") = true
      · rw [if_pos h3]
        exact ⟨_, rfl⟩
      · rw [if_neg h3]
        exact ⟨_, rfl⟩
    · rw [if_neg h2]
      by_cases h4 : (statusString tx.status == "CONFIRMED") = true
      · rw [if_pos h4]
        exact ⟨_, rfl⟩
      · rw [if_neg h4]
        by_cases h5 : (statusString tx.status == "FAILED") = true
        · rw [if_pos h5]
          exact ⟨_, rfl⟩
        · rw [if_neg h5]
          exact ⟨_, rfl⟩

/-- Round trip of a well-formed Success entity: the item unmarshals; a
non-empty (hence well-formed) hash re-marks Success with the same hash, while
an empty hash leaves the rebuilt entity Pending with an empty hash. -/
theorem unmarshal_toItem_success (tx : EVMTransaction)
    (hs : storedWellFormed tx = true) (hst : tx.status = .success)
    (hh : tx.txHash = "" ∨ isValidTransactionHash tx.txHash = true) :
    ∃ u, unmarshalTransactionItem (toTransactionItem tx) = .ok u ∧
      u.txHash = tx.txHash ∧ (tx.txHash ≠ "" → u.status = .success) := by
  have hs2 := hs
  simp only [storedWellFormed, Bool.and_eq_true] at hs2
  obtain ⟨⟨⟨⟨hi, hc⟩, ho⟩, hf⟩, ht⟩ := hs2
  unfold unmarshalTransactionItem toTransactionItem
  dsimp only
  rw [show NewOperationID tx.operationID = .ok tx.operationID from by
    unfold NewOperationID; rw [if_pos hi]]
  rw [show NewChainType tx.chainType = .ok tx.chainType from by
    unfold NewChainType; rw [if_pos hc]]
  rw [show NewOperationType tx.operationType = .ok tx.operationType from by
    unfold NewOperationType; rw [if_pos ho]]
  rw [show NewEVMAddress tx.fromAddress = .ok tx.fromAddress from by
    unfold NewEVMAddress; rw [if_pos hf]]
  rw [show NewEVMAddress tx.toAddress = .ok tx.toAddress from by
    unfold NewEVMAddress; rw [if_pos ht]]
  dsimp only
  rw [hst]
  rw [if_neg (by decide), if_pos (by decide)]
  rcases hh with hh | hh
  · rw [if_pos (by simp [hh])]
    refine ⟨_, rfl, ?_, fun hne => absurd hh hne⟩
    rw [hh]
    rfl
  · have hne := isValidTransactionHash_ne_empty tx.txHash hh
    rw [if_neg (by simpa using hne)]
    rw [show NewTransactionHash tx.txHash = .ok tx.txHash from by
      unfold NewTransactionHash; rw [if_pos hh]]
    exact ⟨_, rfl, by simp, fun _ => by simp⟩

/-- On a store of well-formed records, a failed lookup with a working query
means the key is absent: stored well-formed records always unmarshal. -/
theorem lookup_error_wellFormed_none (o : Oracles) (repo : List EVMTransaction)
    (key msg : String) (hwf : ∀ t ∈ repo, storedWellFormed t = true)
    (hlf : o.lookupFails = false)
    (h : getByIdempotencyKey o repo key = .error msg) :
    repo.find? (fun t => t.idempotencyKey == key) = none := by
  rcases getByIdempotencyKey_error o repo key msg hlf h with hnone | ⟨stored, hfind, hum⟩
  · exact hnone
  · obtain ⟨u, hu⟩ := unmarshal_toItem_ok stored
      (hwf stored (List.mem_of_find?_eq_some hfind))
    rw [hu] at hum
    cases hum

/-- A trace none of whose saved transactions is Failed has no Failed save. -/
theorem savedFailed_false (tr : List Effect)
    (h : ∀ tx, Effect.save tx ∈ tr → (tx.status == TransactionStatus.failed) = false) :
    savedFailed tr = false := by
  unfold savedFailed
  rw [List.any_eq_false]
  intro ef hef
  cases ef with
  | save tx => simpa using h tx hef
  | lookup k => simp
  | rpcGetNonce a => simp
  | rpcGetGasPrice => simp
  | rpcGetBalance a => simp
  | signAndSend => simp
  | waitConfirmations hsh n => simp

/-- The last save of a lookup-then-persist trace ending in a persist. -/
theorem lastSave_shape (k : String) (tx0 : EVMTransaction) (eff : List Effect)
    (txF : EVMTransaction) :
    lastSave (.lookup k :: ([.save tx0] ++ eff ++ [.save txF])) = some txF := by
  have hsplit : (Effect.lookup k :: ([.save tx0] ++ eff ++ [.save txF])) =
      ((Effect.lookup k :: [.save tx0] ++ eff) ++ [.save txF]) := by
    simp
  rw [hsplit, lastSave_append_save]

/-- Inversion of a failed Execute: either a validation error with an empty
trace and a ChainNotSupported or ValidationFailed code, or the error of the
fresh path after the lookup, with the trace headed by the lookup effect. -/
theorem execute_error_cases (req : ExecuteTransactionRequest) (o : Oracles)
    (repo : List EVMTransaction) (e : AppError) (repo2 : List EVMTransaction)
    (tr : List Effect) (h : execute req o repo = (.error e, repo2, tr)) :
    (tr = [] ∧ (e.code = "CHAIN_NOT_SUPPORTED" ∨ e.code = "VALIDATION_FAILED")) ∨
    (∃ efftr, tr = .lookup req.idempotencyKey :: efftr ∧
      executeFresh o (markAsProcessing (NewEVMTransaction req.operationID
          req.chainType req.operationType req.fromAddress req.toAddress
          req.idempotencyKey)) req.operationType req.fromAddress req.toAddress =
        (.error e, efftr)) := by
  unfold execute at h
  cases hc : NewChainType req.chainType with
  | error msg =>
    rw [hc] at h
    dsimp only at h
    obtain ⟨he, htail⟩ := Prod.mk.injEq .. ▸ h
    obtain ⟨-, htr⟩ := Prod.mk.injEq .. ▸ htail
    have he2 : AppError.mk "CHAIN_NOT_SUPPORTED" msg = e := Except.error.injEq .. ▸ he
    exact Or.inl ⟨htr.symm, Or.inl (by rw [← he2])⟩
  | ok ct =>
  rw [hc] at h
  obtain rfl := NewChainType_ok_eq _ _ hc
  cases hot : NewOperationType req.operationType with
  | error msg =>
    rw [hot] at h
    dsimp only at h
    obtain ⟨he, htail⟩ := Prod.mk.injEq .. ▸ h
    obtain ⟨-, htr⟩ := Prod.mk.injEq .. ▸ htail
    have he2 : AppError.mk "VALIDATION_FAILED" msg = e := Except.error.injEq .. ▸ he
    exact Or.inl ⟨htr.symm, Or.inr (by rw [← he2])⟩
  | ok ot =>
  rw [hot] at h
  obtain rfl := NewOperationType_ok_eq _ _ hot
  cases hoi : NewOperationID req.operationID with
  | error msg =>
    rw [hoi] at h
    dsimp only at h
    obtain ⟨he, htail⟩ := Prod.mk.injEq .. ▸ h
    obtain ⟨-, htr⟩ := Prod.mk.injEq .. ▸ htail
    have he2 : AppError.mk "VALIDATION_FAILED" msg = e := Except.error.injEq .. ▸ he
    exact Or.inl ⟨htr.symm, Or.inr (by rw [← he2])⟩
  | ok oid =>
  rw [hoi] at h
  obtain rfl := NewOperationID_ok_eq _ _ hoi
  cases hfa : NewEVMAddress req.fromAddress with
  | error msg =>
    rw [hfa] at h
    dsimp only at h
    obtain ⟨he, htail⟩ := Prod.mk.injEq .. ▸ h
    obtain ⟨-, htr⟩ := Prod.mk.injEq .. ▸ htail
    have he2 : AppError.mk "VALIDATION_FAILED" msg = e := Except.error.injEq .. ▸ he
    exact Or.inl ⟨htr.symm, Or.inr (by rw [← he2])⟩
  | ok fa =>
  rw [hfa] at h
  obtain rfl := NewEVMAddress_ok_eq _ _ hfa
  cases hta : NewEVMAddress req.toAddress with
  | error msg =>
    rw [hta] at h
    dsimp only at h
    obtain ⟨he, htail⟩ := Prod.mk.injEq .. ▸ h
    obtain ⟨-, htr⟩ := Prod.mk.injEq .. ▸ htail
    have he2 : AppError.mk "VALIDATION_FAILED" msg = e := Except.error.injEq .. ▸ he
    exact Or.inl ⟨htr.symm, Or.inr (by rw [← he2])⟩
  | ok ta =>
  rw [hta] at h
  obtain rfl := NewEVMAddress_ok_eq _ _ hta
  cases hl : getByIdempotencyKey o repo req.idempotencyKey with
  | ok existingTx =>
    rw [hl] at h
    dsimp only at h
    obtain ⟨he, -⟩ := Prod.mk.injEq .. ▸ h
    cases he
  | error msg =>
    rw [hl] at h
    dsimp only at h
    rcases hef : executeFresh o (markAsProcessing (NewEVMTransaction req.operationID
        req.chainType req.operationType req.fromAddress req.toAddress
        req.idempotencyKey)) req.operationType req.fromAddress req.toAddress
      with ⟨res, efftr⟩
    rw [hef] at h
    dsimp only at h
    obtain ⟨hres, htail⟩ := Prod.mk.injEq .. ▸ h
    obtain ⟨-, htr⟩ := Prod.mk.injEq .. ▸ htail
    exact Or.inr ⟨efftr, htr.symm, by rw [hres]⟩

/-- C7 (amended): on every failing Execute path that runs after the Transaction
is constructed, the Transaction is marked Failed and a Save of that Failed
state is attempted before the error is returned, except when the final Save of
the executed result itself fails: then the database error is returned without
marking the Transaction Failed and without attempting any Failed-state
persist. -/
theorem execute_failure_persistence (req : ExecuteTransactionRequest) (o : Oracles)
    (repo : List EVMTransaction) :
    (∀ e repo2 tr, execute req o repo = (.error e, repo2, tr) →
      tr.any Effect.isSave = true →
      e ≠ ⟨"DATABASE_ERROR", "failed to update transaction"⟩ →
      ∃ txF, lastSave tr = some txF ∧ txF.status = .failed) ∧
    (∀ repo2 tr,
      execute req o repo =
        (.error ⟨"DATABASE_ERROR", "failed to update transaction"⟩, repo2, tr) →
      savedFailed tr = false) := by
  constructor
  · intro e repo2 tr h hsave hne
    rcases execute_error_cases req o repo e repo2 tr h with ⟨htr, -⟩ | ⟨efftr, htr, hef⟩
    · rw [htr] at hsave
      simp at hsave
    · subst htr
      rcases executeFresh_error _ _ _ _ _ _ _ hef with
        ⟨-, hetr⟩ | ⟨-, hetr⟩ | ⟨f, eff, -, -, hetr⟩ | ⟨he, -⟩
      · subst hetr
        exact ⟨_, rfl, by simp⟩
      · subst hetr
        exact ⟨_, rfl, by simp⟩
      · subst hetr
        exact ⟨_, lastSave_shape _ _ _ _, by simp⟩
      · exact absurd he hne
  · intro repo2 tr h
    rcases execute_error_cases req o repo _ repo2 tr h with ⟨-, hcode⟩ | ⟨efftr, htr, hef⟩
    · rcases hcode with hc | hc <;> exact absurd hc (by decide)
    · subst htr
      rcases executeFresh_error _ _ _ _ _ _ _ hef with
        ⟨he, -⟩ | ⟨he, -⟩ | ⟨f, eff, hd, he, -⟩ | ⟨-, txDone, eff, hd, hetr⟩
      · exact absurd he (by decide)
      · exact absurd he (by decide)
      · obtain ⟨-, hcode⟩ := dispatch_inr _ _ _ _ _ _ _ hd
        rw [← he] at hcode
        rcases hcode with hc | hc <;> exact absurd hc (by decide)
      · subst hetr
        obtain ⟨-, -, hst, hnos⟩ := dispatch_inl _ _ _ _ _ _ _ hd
        apply savedFailed_false
        intro tx htx
        simp only [List.cons_append, List.singleton_append, List.mem_cons,
          List.mem_append, List.mem_singleton] at htx
        rcases htx with habs | htx0 | (habs2 | hin) | (hdone | habs3)
        · cases habs
        · obtain rfl : tx = _ := Effect.save.injEq .. ▸ htx0
          simp
        · simp at habs2
        · have hs := hnos _ hin
          simp [Effect.isSave] at hs
        · obtain rfl : tx = txDone := Effect.save.injEq .. ▸ hdone
          rw [hst]
          rfl
        · simp at habs3

/-- C7 counterexample to the claim as stated: when the final Save fails after a
successful GET_BALANCE execution, Execute returns a database error although no
Failed-status transaction was ever saved; the persisted record stays in
Processing and the only further save attempt carried a Success transaction. -/
theorem execute_final_save_failure_counterexample :
    (execute ⟨"550e8400-e29b-41d4-a716-446655440000", "ETHEREUM", "GET_BALANCE",
        "0x1234567890123456789012345678901234567890",
        "0x0987654321098765432109876543210987654321", "key-1"⟩
      ⟨false, [true, false], true, true, .ok 5, .ok 20, .ok 100, .ok "", .ok ⟨0, 0⟩⟩
      []).1 = .error ⟨"DATABASE_ERROR", "failed to update transaction"⟩ ∧
    savedFailed (execute ⟨"550e8400-e29b-41d4-a716-446655440000", "ETHEREUM",
        "GET_BALANCE", "0x1234567890123456789012345678901234567890",
        "0x0987654321098765432109876543210987654321", "key-1"⟩
      ⟨false, [true, false], true, true, .ok 5, .ok 20, .ok 100, .ok "", .ok ⟨0, 0⟩⟩
      []).2.2 = false ∧
    (execute ⟨"550e8400-e29b-41d4-a716-446655440000", "ETHEREUM", "GET_BALANCE",
        "0x1234567890123456789012345678901234567890",
        "0x0987654321098765432109876543210987654321", "key-1"⟩
      ⟨false, [true, false], true, true, .ok 5, .ok 20, .ok 100, .ok "", .ok ⟨0, 0⟩⟩
      []).2.2.any Effect.isSave = true ∧
    (execute ⟨"550e8400-e29b-41d4-a716-446655440000", "ETHEREUM", "GET_BALANCE",
        "0x1234567890123456789012345678901234567890",
        "0x0987654321098765432109876543210987654321", "key-1"⟩
      ⟨false, [true, false], true, true, .ok 5, .ok 20, .ok 100, .ok "", .ok ⟨0, 0⟩⟩
      []).2.1.all (fun t => t.status == .processing) = true := by decide

/-- Witness for C7 (amended): a failing balance lookup yields a Failed-status
last save, and a failing final Save yields an error with no Failed save. -/
theorem execute_failure_persistence_witness :
    (∃ txF, lastSave (execute ⟨"550e8400-e29b-41d4-a716-446655440000", "ETHEREUM",
        "GET_BALANCE", "0x1234567890123456789012345678901234567890",
        "0x0987654321098765432109876543210987654321", "key-1"⟩
      ⟨false, [], true, true, .ok 5, .ok 20, .error "rpc down", .ok "", .ok ⟨0, 0⟩⟩
      []).2.2 = some txF ∧ txF.status = .failed) ∧
    savedFailed (execute ⟨"550e8400-e29b-41d4-a716-446655440000", "ETHEREUM",
        "GET_BALANCE", "0x1234567890123456789012345678901234567890",
        "0x0987654321098765432109876543210987654321", "key-1"⟩
      ⟨false, [true, false], true, true, .ok 5, .ok 20, .ok 100, .ok "", .ok ⟨0, 0⟩⟩
      []).2.2 = false :=
  ⟨(execute_failure_persistence ⟨"550e8400-e29b-41d4-a716-446655440000", "ETHEREUM",
        "GET_BALANCE", "0x1234567890123456789012345678901234567890",
        "0x0987654321098765432109876543210987654321", "key-1"⟩
      ⟨false, [], true, true, .ok 5, .ok 20, .error "rpc down", .ok "", .ok ⟨0, 0⟩⟩
      []).1 ⟨"RPC_FAILED", "failed to get balance"⟩
      (execute ⟨"550e8400-e29b-41d4-a716-446655440000", "ETHEREUM",
        "GET_BALANCE", "0x1234567890123456789012345678901234567890",
        "0x0987654321098765432109876543210987654321", "key-1"⟩
      ⟨false, [], true, true, .ok 5, .ok 20, .error "rpc down", .ok "", .ok ⟨0, 0⟩⟩
      []).2.1
      (execute ⟨"550e8400-e29b-41d4-a716-446655440000", "ETHEREUM",
        "GET_BALANCE", "0x1234567890123456789012345678901234567890",
        "0x0987654321098765432109876543210987654321", "key-1"⟩
      ⟨false, [], true, true, .ok 5, .ok 20, .error "rpc down", .ok "", .ok ⟨0, 0⟩⟩
      []).2.2
      (by decide) (by decide) (by decide),
   (execute_failure_persistence ⟨"550e8400-e29b-41d4-a716-446655440000", "ETHEREUM",
        "GET_BALANCE", "0x1234567890123456789012345678901234567890",
        "0x0987654321098765432109876543210987654321", "key-1"⟩
      ⟨false, [true, false], true, true, .ok 5, .ok 20, .ok 100, .ok "", .ok ⟨0, 0⟩⟩
      []).2
      (execute ⟨"550e8400-e29b-41d4-a716-446655440000", "ETHEREUM",
        "GET_BALANCE", "0x1234567890123456789012345678901234567890",
        "0x0987654321098765432109876543210987654321", "key-1"⟩
      ⟨false, [true, false], true, true, .ok 5, .ok 20, .ok 100, .ok "", .ok ⟨0, 0⟩⟩
      []).2.1
      (execute ⟨"550e8400-e29b-41d4-a716-446655440000", "ETHEREUM",
        "GET_BALANCE", "0x1234567890123456789012345678901234567890",
        "0x0987654321098765432109876543210987654321", "key-1"⟩
      ⟨false, [true, false], true, true, .ok 5, .ok 20, .ok 100, .ok "", .ok ⟨0, 0⟩⟩
      []).2.2
      (by decide)⟩

/-- C6 (amended): a Success transaction produced by the write path carries the
hash string returned by the signer, which is non-empty whenever it is a
well-formed transaction hash; a Success transaction produced by the read path
always carries an empty hash; and MarkAsConfirmed leaves the hash unchanged,
so the Confirmed mark by itself never establishes a hash. -/
theorem execute_success_hash_policy :
    (∀ (req : ExecuteTransactionRequest) (o : Oracles) (repo : List EVMTransaction)
       (msg hstr : String) (n g : Nat) (rc : Receipt),
       requestWellFormed req = true →
       isWriteOperation req.operationType = true →
       getByIdempotencyKey o repo req.idempotencyKey = .error msg →
       o.saveOutcomes.headD true = true →
       (o.saveOutcomes.drop 1).headD true = true →
       o.hasClient = true →
       o.signerConfigured = true →
       o.nonceResult = .ok n →
       o.gasPriceResult = .ok g →
       o.signResult = .ok hstr →
       isValidTransactionHash hstr = true →
       o.waitResult = .ok rc →
       responseStatus (execute req o repo).1 = some "SUCCESS" ∧
       responseHash (execute req o repo).1 = some hstr ∧ hstr ≠ "") ∧
    (∀ (req : ExecuteTransactionRequest) (o : Oracles) (repo : List EVMTransaction)
       (msg : String) (r : ExecuteTransactionResponse),
       requestWellFormed req = true →
       isWriteOperation req.operationType = false →
       getByIdempotencyKey o repo req.idempotencyKey = .error msg →
       (execute req o repo).1 = .ok r →
       r.transactionHash = "" ∧ r.status = "SUCCESS") ∧
    (∀ t : EVMTransaction, (markAsConfirmed t).txHash = t.txHash) := by
  refine ⟨?_, ?_, fun t => rfl⟩
  · intro req o repo msg hstr n g rc hwf hw hlookup hs1 hs2 hhc hsc hn hg hsr hvalid hwr
    have hex : execute req o repo =
        ((executeFresh o (markAsProcessing (NewEVMTransaction req.operationID
            req.chainType req.operationType req.fromAddress req.toAddress
            req.idempotencyKey)) req.operationType req.fromAddress req.toAddress).1,
         replaySaves o.saveOutcomes repo (executeFresh o (markAsProcessing
            (NewEVMTransaction req.operationID req.chainType req.operationType
            req.fromAddress req.toAddress req.idempotencyKey)) req.operationType
            req.fromAddress req.toAddress).2,
         .lookup req.idempotencyKey :: (executeFresh o (markAsProcessing
            (NewEVMTransaction req.operationID req.chainType req.operationType
            req.fromAddress req.toAddress req.idempotencyKey)) req.operationType
            req.fromAddress req.toAddress).2) := by
      rw [execute_eq_of_wellFormed req o repo hwf, hlookup]
      rfl
    have hnh : NewTransactionHash hstr = .ok hstr := by
      unfold NewTransactionHash
      rw [if_pos hvalid]
    have hfr := dispatch_write_ok req.operationType req.fromAddress req.toAddress o
      (markAsProcessing (NewEVMTransaction req.operationID req.chainType
        req.operationType req.fromAddress req.toAddress req.idempotencyKey))
      n g hstr rc hw hsc hn hg hsr hwr
    rw [hnh] at hfr
    have hef : (executeFresh o (markAsProcessing (NewEVMTransaction req.operationID
        req.chainType req.operationType req.fromAddress req.toAddress
        req.idempotencyKey)) req.operationType req.fromAddress req.toAddress).1 =
        .ok (buildResponse (markAsSuccess (setTxMetadata (markAsProcessing
          (NewEVMTransaction req.operationID req.chainType req.operationType
          req.fromAddress req.toAddress req.idempotencyKey)) (toString g) (n : Int))
          hstr (rc.blockNumber : Int) (rc.gasUsed : Int))) := by
      unfold executeFresh
      rw [if_neg (by rw [hs1]; simp), if_neg (by rw [hhc]; simp), hfr]
      dsimp only
      rw [if_neg (by rw [hs2]; simp)]
    rw [hex]
    dsimp only
    rw [hef]
    exact ⟨rfl, rfl, isValidTransactionHash_ne_empty hstr hvalid⟩
  · intro req o repo msg r hwf hread hlookup hok
    have hex : execute req o repo =
        ((executeFresh o (markAsProcessing (NewEVMTransaction req.operationID
            req.chainType req.operationType req.fromAddress req.toAddress
            req.idempotencyKey)) req.operationType req.fromAddress req.toAddress).1,
         replaySaves o.saveOutcomes repo (executeFresh o (markAsProcessing
            (NewEVMTransaction req.operationID req.chainType req.operationType
            req.fromAddress req.toAddress req.idempotencyKey)) req.operationType
            req.fromAddress req.toAddress).2,
         .lookup req.idempotencyKey :: (executeFresh o (markAsProcessing
            (NewEVMTransaction req.operationID req.chainType req.operationType
            req.fromAddress req.toAddress req.idempotencyKey)) req.operationType
            req.fromAddress req.toAddress).2) := by
      rw [execute_eq_of_wellFormed req o repo hwf, hlookup]
      rfl
    rw [hex] at hok
    dsimp only at hok
    rcases hef : executeFresh o (markAsProcessing (NewEVMTransaction req.operationID
        req.chainType req.operationType req.fromAddress req.toAddress
        req.idempotencyKey)) req.operationType req.fromAddress req.toAddress
      with ⟨res, efftr⟩
    rw [hef] at hok
    dsimp only at hok
    rw [hok] at hef
    obtain ⟨-, -, -, txDone, eff, hd, hr, -⟩ := executeFresh_ok _ _ _ _ _ _ _ hef
    have hdone := dispatch_read_inl _ _ _ _ _ _ _ hread hd
    subst hdone
    subst hr
    exact ⟨rfl, rfl⟩

/-- Witness for C6 (amended): a successful TRANSFER run carries the
well-formed signer hash, and a successful GET_NONCE run carries an empty
hash. -/
theorem execute_success_hash_policy_witness :
    (responseStatus (execute ⟨"550e8400-e29b-41d4-a716-446655440000", "ETHEREUM",
        "TRANSFER", "0x1234567890123456789012345678901234567890",
        "0x0987654321098765432109876543210987654321", "key-1"⟩
      ⟨false, [], true, true, .ok 5, .ok 20, .ok 100,
        .ok "0x1111111111111111111111111111111111111111111111111111111111111111",
        .ok ⟨50, 21000⟩⟩ []).1 = some "SUCCESS" ∧
     responseHash (execute ⟨"550e8400-e29b-41d4-a716-446655440000", "ETHEREUM",
        "TRANSFER", "0x1234567890123456789012345678901234567890",
        "0x0987654321098765432109876543210987654321", "key-1"⟩
      ⟨false, [], true, true, .ok 5, .ok 20, .ok 100,
        .ok "0x1111111111111111111111111111111111111111111111111111111111111111",
        .ok ⟨50, 21000⟩⟩ []).1 =
       some "0x1111111111111111111111111111111111111111111111111111111111111111" ∧
     "0x1111111111111111111111111111111111111111111111111111111111111111" ≠ "") ∧
    ((buildResponse (markAsSuccess (markAsProcessing (NewEVMTransaction
        "550e8400-e29b-41d4-a716-446655440000" "ETHEREUM" "GET_NONCE"
        "0x1234567890123456789012345678901234567890"
        "0x0987654321098765432109876543210987654321" "key-1")) "" 0 0)).transactionHash
        = "" ∧
     (buildResponse (markAsSuccess (markAsProcessing (NewEVMTransaction
        "550e8400-e29b-41d4-a716-446655440000" "ETHEREUM" "GET_NONCE"
        "0x1234567890123456789012345678901234567890"
        "0x0987654321098765432109876543210987654321" "key-1")) "" 0 0)).status
        = "SUCCESS") :=
  ⟨execute_success_hash_policy.1 ⟨"550e8400-e29b-41d4-a716-446655440000", "ETHEREUM",
        "TRANSFER", "0x1234567890123456789012345678901234567890",
        "0x0987654321098765432109876543210987654321", "key-1"⟩
      ⟨false, [], true, true, .ok 5, .ok 20, .ok 100,
        .ok "0x1111111111111111111111111111111111111111111111111111111111111111",
        .ok ⟨50, 21000⟩⟩ [] "transaction not found"
      "0x1111111111111111111111111111111111111111111111111111111111111111"
      5 20 ⟨50, 21000⟩ (by decide) (by decide) (by decide) (by decide) (by decide)
      (by decide) (by decide) (by decide) (by decide) (by decide) (by decide)
      (by decide),
   execute_success_hash_policy.2.1 ⟨"550e8400-e29b-41d4-a716-446655440000",
        "ETHEREUM", "GET_NONCE", "0x1234567890123456789012345678901234567890",
        "0x0987654321098765432109876543210987654321", "key-1"⟩
      ⟨false, [], true, true, .ok 5, .ok 20, .ok 100, .ok "", .ok ⟨0, 0⟩⟩
      [] "transaction not found"
      (buildResponse (markAsSuccess (markAsProcessing (NewEVMTransaction
        "550e8400-e29b-41d4-a716-446655440000" "ETHEREUM" "GET_NONCE"
        "0x1234567890123456789012345678901234567890"
        "0x0987654321098765432109876543210987654321" "key-1")) "" 0 0))
      (by decide) (by decide) (by decide) (by decide)⟩

/-- C6 counterexample to the claim as stated: a successful GET_BALANCE run
ends with a Success transaction and response whose transaction hash is
empty. -/
theorem execute_success_empty_hash_counterexample :
    responseStatus (execute ⟨"550e8400-e29b-41d4-a716-446655440000", "ETHEREUM",
        "GET_BALANCE", "0x1234567890123456789012345678901234567890",
        "0x0987654321098765432109876543210987654321", "key-1"⟩
      ⟨false, [], true, true, .ok 5, .ok 20, .ok 100, .ok "", .ok ⟨0, 0⟩⟩
      []).1 = some "SUCCESS" ∧
    responseHash (execute ⟨"550e8400-e29b-41d4-a716-446655440000", "ETHEREUM",
        "GET_BALANCE", "0x1234567890123456789012345678901234567890",
        "0x0987654321098765432109876543210987654321", "key-1"⟩
      ⟨false, [], true, true, .ok 5, .ok 20, .ok 100, .ok "", .ok ⟨0, 0⟩⟩
      []).1 = some "" ∧
    (execute ⟨"550e8400-e29b-41d4-a716-446655440000", "ETHEREUM", "GET_BALANCE",
        "0x1234567890123456789012345678901234567890",
        "0x0987654321098765432109876543210987654321", "key-1"⟩
      ⟨false, [], true, true, .ok 5, .ok 20, .ok 100, .ok "", .ok ⟨0, 0⟩⟩
      []).2.1.all (fun t => t.status == .success && t.txHash == "") = true ∧
    (execute ⟨"550e8400-e29b-41d4-a716-446655440000", "ETHEREUM", "GET_BALANCE",
        "0x1234567890123456789012345678901234567890",
        "0x0987654321098765432109876543210987654321", "key-1"⟩
      ⟨false, [], true, true, .ok 5, .ok 20, .ok 100, .ok "", .ok ⟨0, 0⟩⟩
      []).2.1.length = 1 := by decide

/-- Execute on a well-formed request whose lookup misses or fails reduces to
the fresh path: result and effects of executeFresh behind the lookup effect,
with the store updated by replaying the saves. -/
theorem execute_fresh_eq (req : ExecuteTransactionRequest) (o : Oracles)
    (repo : List EVMTransaction) (msg : String)
    (hwf : requestWellFormed req = true)
    (hl : getByIdempotencyKey o repo req.idempotencyKey = .error msg) :
    execute req o repo =
      ((executeFresh o (markAsProcessing (NewEVMTransaction req.operationID
          req.chainType req.operationType req.fromAddress req.toAddress
          req.idempotencyKey)) req.operationType req.fromAddress req.toAddress).1,
       replaySaves o.saveOutcomes repo (executeFresh o (markAsProcessing
          (NewEVMTransaction req.operationID req.chainType req.operationType
          req.fromAddress req.toAddress req.idempotencyKey)) req.operationType
          req.fromAddress req.toAddress).2,
       .lookup req.idempotencyKey :: (executeFresh o (markAsProcessing
          (NewEVMTransaction req.operationID req.chainType req.operationType
          req.fromAddress req.toAddress req.idempotencyKey)) req.operationType
          req.fromAddress req.toAddress).2) := by
  rw [execute_eq_of_wellFormed req o repo hwf, hl]
  rfl

/-- A request failing any of the five validations makes Execute return the
same validation error, untouched store and empty trace for every oracle and
store. -/
theorem execute_not_wellFormed (req : ExecuteTransactionRequest)
    (h : requestWellFormed req = false) :
    ∃ e, ∀ (o : Oracles) (repo : List EVMTransaction),
      execute req o repo = (.error e, repo, []) := by
  by_cases h1 : chainTypeIsValid req.chainType = true
  · by_cases h2 : operationTypeIsValid req.operationType = true
    · by_cases h3 : isValidOperationID req.operationID = true
      · by_cases h4 : isValidEVMAddress req.fromAddress = true
        · by_cases h5 : isValidEVMAddress req.toAddress = true
          · rw [requestWellFormed, h1, h2, h3, h4, h5] at h
            simp at h
          · refine ⟨⟨"VALIDATION_FAILED", "invalid EVM address: " ++ req.toAddress⟩,
              fun o repo => ?_⟩
            simp [execute, NewChainType, NewOperationType, NewOperationID,
              NewEVMAddress, h1, h2, h3, h4, eq_false_of_ne_true h5]
        · refine ⟨⟨"VALIDATION_FAILED", "invalid EVM address: " ++ req.fromAddress⟩,
            fun o repo => ?_⟩
          simp [execute, NewChainType, NewOperationType, NewOperationID,
            NewEVMAddress, h1, h2, h3, eq_false_of_ne_true h4]
      · refine ⟨⟨"VALIDATION_FAILED", "invalid operation ID: " ++ req.operationID⟩,
          fun o repo => ?_⟩
        simp [execute, NewChainType, NewOperationType, NewOperationID, h1, h2,
          eq_false_of_ne_true h3]
    · refine ⟨⟨"VALIDATION_FAILED", "invalid operation type: " ++ req.operationType⟩,
        fun o repo => ?_⟩
      simp [execute, NewChainType, NewOperationType, h1, eq_false_of_ne_true h2]
  · refine ⟨⟨"CHAIN_NOT_SUPPORTED", "invalid chain type: " ++ req.chainType⟩,
      fun o repo => ?_⟩
    simp [execute, NewChainType, eq_false_of_ne_true h1]

/-- C8 (amended): the operation identifier is validated against the UUID
format before a Transaction is constructed and construction is not reached
when it is malformed; the idempotency key undergoes no validation: any string
is accepted and carried verbatim into the constructed and persisted
Transaction. -/
theorem execute_operation_id_gate (req : ExecuteTransactionRequest) (o : Oracles)
    (repo : List EVMTransaction) :
    (chainTypeIsValid req.chainType = true →
     operationTypeIsValid req.operationType = true →
     isValidOperationID req.operationID = false →
     execute req o repo =
       (.error ⟨"VALIDATION_FAILED", "invalid operation ID: " ++ req.operationID⟩,
        repo, [])) ∧
    (∀ msg, requestWellFormed req = true →
     getByIdempotencyKey o repo req.idempotencyKey = .error msg →
     (execute req o repo).2.2.take 2 =
       [.lookup req.idempotencyKey,
        .save (markAsProcessing (NewEVMTransaction req.operationID req.chainType
          req.operationType req.fromAddress req.toAddress req.idempotencyKey))]) := by
  constructor
  · intro h1 h2 h3
    simp [execute, NewChainType, NewOperationType, NewOperationID, h1, h2, h3]
  · intro msg hwf hlookup
    rw [execute_fresh_eq req o repo msg hwf hlookup]
    obtain ⟨rest, hrest⟩ := executeFresh_trace_head o (markAsProcessing
      (NewEVMTransaction req.operationID req.chainType req.operationType
      req.fromAddress req.toAddress req.idempotencyKey)) req.operationType
      req.fromAddress req.toAddress
    dsimp only
    rw [hrest]
    rfl

/-- Witness for C8 (amended): a malformed operation identifier stops Execute
before construction; a key that matches neither the UUID nor the address or
hash formats flows into the constructed transaction. -/
theorem execute_operation_id_gate_witness :
    execute ⟨"not-a-uuid", "ETHEREUM", "GET_BALANCE",
        "0x1234567890123456789012345678901234567890",
        "0x0987654321098765432109876543210987654321", "key-1"⟩
      ⟨false, [], true, true, .ok 5, .ok 20, .ok 100, .ok "", .ok ⟨0, 0⟩⟩ [] =
      (.error ⟨"VALIDATION_FAILED", "invalid operation ID: " ++ "not-a-uuid"⟩,
       [], []) ∧
    (execute ⟨"550e8400-e29b-41d4-a716-446655440000", "ETHEREUM", "GET_BALANCE",
        "0x1234567890123456789012345678901234567890",
        "0x0987654321098765432109876543210987654321", "###"⟩
      ⟨false, [], true, true, .ok 5, .ok 20, .ok 100, .ok "", .ok ⟨0, 0⟩⟩
      []).2.2.take 2 =
      [.lookup "###",
       .save (markAsProcessing (NewEVMTransaction
         "550e8400-e29b-41d4-a716-446655440000" "ETHEREUM" "GET_BALANCE"
         "0x1234567890123456789012345678901234567890"
         "0x0987654321098765432109876543210987654321" "###"))] :=
  ⟨(execute_operation_id_gate ⟨"not-a-uuid", "ETHEREUM", "GET_BALANCE",
        "0x1234567890123456789012345678901234567890",
        "0x0987654321098765432109876543210987654321", "key-1"⟩
      ⟨false, [], true, true, .ok 5, .ok 20, .ok 100, .ok "", .ok ⟨0, 0⟩⟩ []).1
      (by decide) (by decide) (by decide),
   (execute_operation_id_gate ⟨"550e8400-e29b-41d4-a716-446655440000", "ETHEREUM",
        "GET_BALANCE", "0x1234567890123456789012345678901234567890",
        "0x0987654321098765432109876543210987654321", "###"⟩
      ⟨false, [], true, true, .ok 5, .ok 20, .ok 100, .ok "", .ok ⟨0, 0⟩⟩ []).2
      "transaction not found" (by decide) (by decide)⟩

/-- C8 counterexample to the claim as stated: with an idempotency key matching
neither the UUID format nor the EVM-address or hash formats, Execute still
reaches construction, persists the Transaction carrying that raw key, and
succeeds. -/
theorem execute_key_not_validated_counterexample :
    isValidOperationID "###" = false ∧
    isValidEVMAddress "###" = false ∧
    isValidTransactionHash "###" = false ∧
    responseStatus (execute ⟨"550e8400-e29b-41d4-a716-446655440000", "ETHEREUM",
        "GET_BALANCE", "0x1234567890123456789012345678901234567890",
        "0x0987654321098765432109876543210987654321", "###"⟩
      ⟨false, [], true, true, .ok 5, .ok 20, .ok 100, .ok "", .ok ⟨0, 0⟩⟩
      []).1 = some "SUCCESS" ∧
    (execute ⟨"550e8400-e29b-41d4-a716-446655440000", "ETHEREUM", "GET_BALANCE",
        "0x1234567890123456789012345678901234567890",
        "0x0987654321098765432109876543210987654321", "###"⟩
      ⟨false, [], true, true, .ok 5, .ok 20, .ok 100, .ok "", .ok ⟨0, 0⟩⟩
      []).2.1.all (fun t => t.idempotencyKey == "###") = true ∧
    (execute ⟨"550e8400-e29b-41d4-a716-446655440000", "ETHEREUM", "GET_BALANCE",
        "0x1234567890123456789012345678901234567890",
        "0x0987654321098765432109876543210987654321", "###"⟩
      ⟨false, [], true, true, .ok 5, .ok 20, .ok 100, .ok "", .ok ⟨0, 0⟩⟩
      []).2.1.length = 1 := by decide

/-- C10: a failed idempotency lookup is swallowed: the result and the effect
trace equal those of the same run against an empty store where the key was
never seen, so Execute proceeds to construct, persist and execute a fresh
Transaction, including its RPC side effects. -/
theorem execute_lookup_error_ignored (req : ExecuteTransactionRequest) (o : Oracles)
    (repo : List EVMTransaction) :
    ((execute req { o with lookupFails := true } repo).1 =
      (execute req { o with lookupFails := false } []).1) ∧
    ((execute req { o with lookupFails := true } repo).2.2 =
      (execute req { o with lookupFails := false } []).2.2) ∧
    (requestWellFormed req = true →
      (execute req { o with lookupFails := true } repo).2.2.take 2 =
        [.lookup req.idempotencyKey,
         .save (markAsProcessing (NewEVMTransaction req.operationID req.chainType
           req.operationType req.fromAddress req.toAddress req.idempotencyKey))]) := by
  by_cases hwf : requestWellFormed req = true
  · have h1 : getByIdempotencyKey { o with lookupFails := true } repo
        req.idempotencyKey = .error "failed to query transaction" := by
      unfold getByIdempotencyKey
      rw [if_pos rfl]
    have h2 : getByIdempotencyKey { o with lookupFails := false } []
        req.idempotencyKey = .error "transaction not found" := by
      unfold getByIdempotencyKey
      rw [if_neg (by simp)]
      rfl
    rw [execute_fresh_eq req _ repo _ hwf h1, execute_fresh_eq req _ [] _ hwf h2]
    have heq : executeFresh { o with lookupFails := true } (markAsProcessing
        (NewEVMTransaction req.operationID req.chainType req.operationType
        req.fromAddress req.toAddress req.idempotencyKey)) req.operationType
        req.fromAddress req.toAddress =
        executeFresh { o with lookupFails := false } (markAsProcessing
        (NewEVMTransaction req.operationID req.chainType req.operationType
        req.fromAddress req.toAddress req.idempotencyKey)) req.operationType
        req.fromAddress req.toAddress := rfl
    refine ⟨by rw [heq], by rw [heq], fun _ => ?_⟩
    obtain ⟨rest, hrest⟩ := executeFresh_trace_head { o with lookupFails := true }
      (markAsProcessing (NewEVMTransaction req.operationID req.chainType
      req.operationType req.fromAddress req.toAddress req.idempotencyKey))
      req.operationType req.fromAddress req.toAddress
    dsimp only
    rw [hrest]
    rfl
  · obtain ⟨e, he⟩ := execute_not_wellFormed req (eq_false_of_ne_true hwf)
    rw [he { o with lookupFails := true } repo, he { o with lookupFails := false } []]
    exact ⟨rfl, rfl, fun habs => absurd habs hwf⟩

/-- Witness for C10: with the store actually holding the idempotency key but
the lookup failing, Execute behaves exactly as on an empty store and persists
a fresh Processing transaction. -/
theorem execute_lookup_error_ignored_witness :
    ((execute ⟨"550e8400-e29b-41d4-a716-446655440000", "ETHEREUM", "GET_BALANCE",
        "0x1234567890123456789012345678901234567890",
        "0x0987654321098765432109876543210987654321", "key-1"⟩
      { (⟨false, [], true, true, .ok 5, .ok 20, .ok 100, .ok "", .ok ⟨0, 0⟩⟩ : Oracles)
        with lookupFails := true }
      [markAsSuccess (markAsProcessing (NewEVMTransaction
        "550e8400-e29b-41d4-a716-446655440000" "ETHEREUM" "GET_BALANCE"
        "0x1234567890123456789012345678901234567890"
        "0x0987654321098765432109876543210987654321" "key-1")) "" 0 0]).1 =
     (execute ⟨"550e8400-e29b-41d4-a716-446655440000", "ETHEREUM", "GET_BALANCE",
        "0x1234567890123456789012345678901234567890",
        "0x0987654321098765432109876543210987654321", "key-1"⟩
      { (⟨false, [], true, true, .ok 5, .ok 20, .ok 100, .ok "", .ok ⟨0, 0⟩⟩ : Oracles)
        with lookupFails := false } []).1) ∧
    ((execute ⟨"550e8400-e29b-41d4-a716-446655440000", "ETHEREUM", "GET_BALANCE",
        "0x1234567890123456789012345678901234567890",
        "0x0987654321098765432109876543210987654321", "key-1"⟩
      { (⟨false, [], true, true, .ok 5, .ok 20, .ok 100, .ok "", .ok ⟨0, 0⟩⟩ : Oracles)
        with lookupFails := true }
      [markAsSuccess (markAsProcessing (NewEVMTransaction
        "550e8400-e29b-41d4-a716-446655440000" "ETHEREUM" "GET_BALANCE"
        "0x1234567890123456789012345678901234567890"
        "0x0987654321098765432109876543210987654321" "key-1")) "" 0 0]).2.2.take 2 =
     [.lookup "key-1",
      .save (markAsProcessing (NewEVMTransaction
        "550e8400-e29b-41d4-a716-446655440000" "ETHEREUM" "GET_BALANCE"
        "0x1234567890123456789012345678901234567890"
        "0x0987654321098765432109876543210987654321" "key-1"))]) :=
  ⟨(execute_lookup_error_ignored ⟨"550e8400-e29b-41d4-a716-446655440000",
        "ETHEREUM", "GET_BALANCE", "0x1234567890123456789012345678901234567890",
        "0x0987654321098765432109876543210987654321", "key-1"⟩
      ⟨false, [], true, true, .ok 5, .ok 20, .ok 100, .ok "", .ok ⟨0, 0⟩⟩
      [markAsSuccess (markAsProcessing (NewEVMTransaction
        "550e8400-e29b-41d4-a716-446655440000" "ETHEREUM" "GET_BALANCE"
        "0x1234567890123456789012345678901234567890"
        "0x0987654321098765432109876543210987654321" "key-1")) "" 0 0]).1,
   (execute_lookup_error_ignored ⟨"550e8400-e29b-41d4-a716-446655440000",
        "ETHEREUM", "GET_BALANCE", "0x1234567890123456789012345678901234567890",
        "0x0987654321098765432109876543210987654321", "key-1"⟩
      ⟨false, [], true, true, .ok 5, .ok 20, .ok 100, .ok "", .ok ⟨0, 0⟩⟩
      [markAsSuccess (markAsProcessing (NewEVMTransaction
        "550e8400-e29b-41d4-a716-446655440000" "ETHEREUM" "GET_BALANCE"
        "0x1234567890123456789012345678901234567890"
        "0x0987654321098765432109876543210987654321" "key-1")) "" 0 0]).2.2
      (by decide)⟩

/-- Inversion of a successful Execute: either the idempotency lookup hit and
the unmarshalled transaction was returned with the store untouched, or the
lookup missed and the store gained the Processing and then the final
transaction, which carries the request fields (all validated), has Success
status with an empty or well-formed hash, and built the response. -/
theorem execute_ok_cases (req : ExecuteTransactionRequest) (o : Oracles)
    (repo : List EVMTransaction) (r : ExecuteTransactionResponse)
    (repo2 : List EVMTransaction) (tr : List Effect)
    (h : execute req o repo = (.ok r, repo2, tr)) :
    (∃ tx, getByIdempotencyKey o repo req.idempotencyKey = .ok tx ∧
      r = buildResponse tx ∧ repo2 = repo) ∨
    (∃ msg txDone, getByIdempotencyKey o repo req.idempotencyKey = .error msg ∧
      r = buildResponse txDone ∧
      txDone.idempotencyKey = req.idempotencyKey ∧
      txDone.operationID = req.operationID ∧
      txDone.chainType = req.chainType ∧
      txDone.operationType = req.operationType ∧
      txDone.fromAddress = req.fromAddress ∧
      txDone.toAddress = req.toAddress ∧
      requestWellFormed req = true ∧
      txDone.status = .success ∧
      (txDone.txHash = "" ∨ isValidTransactionHash txDone.txHash = true) ∧
      repo2 = upsert (upsert repo (markAsProcessing (NewEVMTransaction
        req.operationID req.chainType req.operationType req.fromAddress
        req.toAddress req.idempotencyKey))) txDone) := by
  unfold execute at h
  cases hc : NewChainType req.chainType with
  | error msg =>
    rw [hc] at h
    dsimp only at h
    obtain ⟨he, -⟩ := Prod.mk.injEq .. ▸ h
    cases he
  | ok ct =>
  rw [hc] at h
  obtain rfl := NewChainType_ok_eq _ _ hc
  cases hot : NewOperationType req.operationType with
  | error msg =>
    rw [hot] at h
    dsimp only at h
    obtain ⟨he, -⟩ := Prod.mk.injEq .. ▸ h
    cases he
  | ok ot =>
  rw [hot] at h
  obtain rfl := NewOperationType_ok_eq _ _ hot
  cases hoi : NewOperationID req.operationID with
  | error msg =>
    rw [hoi] at h
    dsimp only at h
    obtain ⟨he, -⟩ := Prod.mk.injEq .. ▸ h
    cases he
  | ok oid =>
  rw [hoi] at h
  obtain rfl := NewOperationID_ok_eq _ _ hoi
  cases hfa : NewEVMAddress req.fromAddress with
  | error msg =>
    rw [hfa] at h
    dsimp only at h
    obtain ⟨he, -⟩ := Prod.mk.injEq .. ▸ h
    cases he
  | ok fa =>
  rw [hfa] at h
  obtain rfl := NewEVMAddress_ok_eq _ _ hfa
  cases hta : NewEVMAddress req.toAddress with
  | error msg =>
    rw [hta] at h
    dsimp only at h
    obtain ⟨he, -⟩ := Prod.mk.injEq .. ▸ h
    cases he
  | ok ta =>
  rw [hta] at h
  obtain rfl := NewEVMAddress_ok_eq _ _ hta
  cases hl : getByIdempotencyKey o repo req.idempotencyKey with
  | ok existingTx =>
    rw [hl] at h
    dsimp only at h
    obtain ⟨he, htail⟩ := Prod.mk.injEq .. ▸ h
    obtain ⟨hrepo, -⟩ := Prod.mk.injEq .. ▸ htail
    exact Or.inl ⟨existingTx, rfl, (Except.ok.injEq .. ▸ he).symm, hrepo.symm⟩
  | error msg =>
    rw [hl] at h
    dsimp only at h
    rcases hef : executeFresh o (markAsProcessing (NewEVMTransaction req.operationID
        req.chainType req.operationType req.fromAddress req.toAddress
        req.idempotencyKey)) req.operationType req.fromAddress req.toAddress
      with ⟨res, efftr⟩
    rw [hef] at h
    dsimp only at h
    obtain ⟨hres, htail⟩ := Prod.mk.injEq .. ▸ h
    obtain ⟨hrepo, -⟩ := Prod.mk.injEq .. ▸ htail
    rw [hres] at hef
    obtain ⟨hs1, hs2, -, txDone, eff, hd, hr, hshape⟩ :=
      executeFresh_ok _ _ _ _ _ _ _ hef
    obtain ⟨hop, hkey, hstat, hnos⟩ := dispatch_inl _ _ _ _ _ _ _ hd
    obtain ⟨hctD, hotD, hfaD, htaD, hhashD⟩ := dispatch_inl_fields _ _ _ _ _ _ _ hd
    have hwfreq : requestWellFormed req = true := by
      simp only [requestWellFormed, Bool.and_eq_true]
      exact ⟨⟨⟨⟨NewChainType_ok_valid _ _ hc, NewOperationType_ok_valid _ _ hot⟩,
        NewOperationID_ok_valid _ _ hoi⟩, NewEVMAddress_ok_valid _ _ hfa⟩,
        NewEVMAddress_ok_valid _ _ hta⟩
    refine Or.inr ⟨msg, txDone, rfl, hr, by simpa using hkey, by simpa using hop,
      by simpa using hctD, by simpa using hotD, by simpa using hfaD,
      by simpa using htaD, hwfreq, hstat, hhashD, ?_⟩
    rw [← hrepo, hshape]
    rw [List.singleton_append, List.cons_append, replaySaves_save, if_pos hs1,
      replaySaves_append_nonsave _ _ _ _ hnos, replaySaves_save, if_pos hs2,
      replaySaves_nil]

/-- C1 (amended): when the idempotency lookup finds an existing record,
Execute returns the response built from the record as the repository
unmarshals it, performs no RPC call and no repository Save, and leaves the
store unchanged; and two sequential successful Execute calls sharing an
idempotency key, run against a working lookup over a store of validated
records, return responses with identical transaction hash, and with identical
status whenever the first response carries a non-empty hash. The claim's
unconditional identical-status clause fails: a Success record with an empty
hash, which every read-path success stores, is re-read as Pending by
unmarshalTransactionItem. -/
theorem execute_idempotency :
    (∀ (req : ExecuteTransactionRequest) (o : Oracles) (repo : List EVMTransaction)
       (tx : EVMTransaction),
       requestWellFormed req = true →
       getByIdempotencyKey o repo req.idempotencyKey = .ok tx →
       execute req o repo = (.ok (buildResponse tx), repo, [.lookup req.idempotencyKey]) ∧
       (execute req o repo).2.2.any Effect.isRpc = false ∧
       (execute req o repo).2.2.any Effect.isSave = false) ∧
    (∀ (req1 req2 : ExecuteTransactionRequest) (o1 o2 : Oracles)
       (repo repo1 repo2 : List EVMTransaction)
       (r1 r2 : ExecuteTransactionResponse) (t1 t2 : List Effect),
       (∀ t ∈ repo, storedWellFormed t = true) →
       o1.lookupFails = false → o2.lookupFails = false →
       req1.idempotencyKey = req2.idempotencyKey →
       execute req1 o1 repo = (.ok r1, repo1, t1) →
       execute req2 o2 repo1 = (.ok r2, repo2, t2) →
       r2.transactionHash = r1.transactionHash ∧
       (r1.transactionHash ≠ "" → r2.status = r1.status)) := by
  constructor
  · intro req o repo tx hwf hlookup
    have hex : execute req o repo =
        (.ok (buildResponse tx), repo, [.lookup req.idempotencyKey]) := by
      rw [execute_eq_of_wellFormed req o repo hwf, hlookup]
    refine ⟨hex, ?_, ?_⟩ <;> (rw [hex]; rfl)
  · intro req1 req2 o1 o2 repo repo1 repo2 r1 r2 t1 t2 hwfstore hlf1 hlf2 hkey h1 h2
    rcases execute_ok_cases req1 o1 repo r1 repo1 t1 h1 with
      ⟨tx, hl1, hr1, hrepo1⟩ |
      ⟨msg, txDone, hl1, hr1, hkeyD, hopD, hctD, hotD, hfaD, htaD, hwf1, hstD,
        hhashD, hrepo1⟩
    · obtain ⟨-, stored, hfind1, hum1⟩ := getByIdempotencyKey_ok o1 repo _ tx hl1
      subst hrepo1
      rcases execute_ok_cases req2 o2 _ r2 repo2 t2 h2 with
        ⟨tx2, hl2, hr2, -⟩ | ⟨msg2, txDone2, hl2, -, -, -, -, -, -, -, -, -, -, -⟩
      · obtain ⟨-, stored2, hfind2, hum2⟩ := getByIdempotencyKey_ok o2 _ _ tx2 hl2
        rw [← hkey, hfind1] at hfind2
        injection hfind2 with hst2
        subst hst2
        rw [hum1] at hum2
        injection hum2 with htx
        subst htx
        rw [hr1, hr2]
        exact ⟨rfl, fun _ => rfl⟩
      · rcases getByIdempotencyKey_error o2 _ _ msg2 hlf2 hl2 with
          hnone | ⟨stored2, hfind2, hum2⟩
        · rw [← hkey, hfind1] at hnone
          cases hnone
        · rw [← hkey, hfind1] at hfind2
          injection hfind2 with hst2
          subst hst2
          rw [hum1] at hum2
          cases hum2
    · have hnone1 : repo.find? (fun t => t.idempotencyKey == req1.idempotencyKey) =
          none :=
        lookup_error_wellFormed_none o1 repo _ msg hwfstore hlf1 hl1
      have hswf : storedWellFormed txDone = true := by
        have h5 := hwf1
        simp only [requestWellFormed, Bool.and_eq_true] at h5
        obtain ⟨⟨⟨⟨hcv, hov⟩, hiv⟩, hfv⟩, htv⟩ := h5
        simp only [storedWellFormed, Bool.and_eq_true]
        refine ⟨⟨⟨⟨?_, ?_⟩, ?_⟩, ?_⟩, ?_⟩
        · rw [hopD]; exact hiv
        · rw [hctD]; exact hcv
        · rw [hotD]; exact hov
        · rw [hfaD]; exact hfv
        · rw [htaD]; exact htv
      obtain ⟨u, humu, huhash, hustatus⟩ :=
        unmarshal_toItem_success txDone hswf hstD hhashD
      have hmem : txDone ∈ repo1 := hrepo1 ▸ mem_upsert_self _ txDone
      have hpred : (txDone.idempotencyKey == req1.idempotencyKey) = true := by
        simp [hkeyD]
      have huniq : ∀ t ∈ repo1,
          (t.idempotencyKey == req1.idempotencyKey) = true → t = txDone := by
        intro t ht hpt
        rw [hrepo1] at ht
        rcases mem_upsert _ _ _ ht with rfl | ⟨ht2, hne⟩
        · rfl
        · rcases mem_upsert _ _ _ ht2 with rfl | ⟨ht3, -⟩
          · exact absurd hne (by simp [hopD])
          · exact absurd hpt (by simpa using List.find?_eq_none.mp hnone1 t ht3)
      have hfind1 : repo1.find?
          (fun t => t.idempotencyKey == req1.idempotencyKey) = some txDone :=
        find?_unique _ txDone repo1 hmem hpred huniq
      rcases execute_ok_cases req2 o2 repo1 r2 repo2 t2 h2 with
        ⟨tx2, hl2, hr2, -⟩ | ⟨msg2, txDone2, hl2, -, -, -, -, -, -, -, -, -, -, -⟩
      · obtain ⟨-, stored2, hfind2, hum2⟩ := getByIdempotencyKey_ok o2 repo1 _ tx2 hl2
        rw [← hkey, hfind1] at hfind2
        injection hfind2 with hst2
        subst hst2
        rw [humu] at hum2
        injection hum2 with htx
        subst htx
        rw [hr1, hr2]
        constructor
        · show u.txHash = txDone.txHash
          exact huhash
        · intro hne
          have hs2 : u.status = .success := hustatus (by simpa [buildResponse] using hne)
          show statusString u.status = statusString txDone.status
          rw [hs2, hstD]
      · rcases getByIdempotencyKey_error o2 repo1 _ msg2 hlf2 hl2 with
          hnone | ⟨stored2, hfind2, hum2⟩
        · rw [← hkey, hfind1] at hnone
          cases hnone
        · rw [← hkey, hfind1] at hfind2
          injection hfind2 with hst2
          subst hst2
          rw [humu] at hum2
          cases hum2

/-- Counterexample to C1 as stated: two sequential successful GET_BALANCE
Execute calls share the idempotency key (the first on an empty store, the
second on the store the first produced), yet the first returns status SUCCESS
and the second status PENDING: the stored Success record carries the read
path's empty hash, which the repository unmarshal re-reads as Pending. -/
theorem execute_idempotency_counterexample :
    responseStatus (execute ⟨"550e8400-e29b-41d4-a716-446655440000", "ETHEREUM",
        "GET_BALANCE", "0x1234567890123456789012345678901234567890",
        "0x0987654321098765432109876543210987654321", "key-1"⟩
      ⟨false, [], true, true, .ok 5, .ok 20, .ok 100, .ok "", .ok ⟨0, 0⟩⟩ []).1 =
      some "SUCCESS" ∧
    responseStatus (execute ⟨"550e8400-e29b-41d4-a716-446655440000", "ETHEREUM",
        "GET_BALANCE", "0x1234567890123456789012345678901234567890",
        "0x0987654321098765432109876543210987654321", "key-1"⟩
      ⟨false, [], true, true, .ok 5, .ok 20, .ok 100, .ok "", .ok ⟨0, 0⟩⟩
      (execute ⟨"550e8400-e29b-41d4-a716-446655440000", "ETHEREUM",
        "GET_BALANCE", "0x1234567890123456789012345678901234567890",
        "0x0987654321098765432109876543210987654321", "key-1"⟩
      ⟨false, [], true, true, .ok 5, .ok 20, .ok 100, .ok "", .ok ⟨0, 0⟩⟩ []).2.1).1 =
      some "PENDING" := by
  decide

/-- Witness for C1: a hit on a stored read-path Success record returns the
unmarshalled (Pending) record with a lookup-only trace, and the two-call run
satisfies the amended hash and conditional-status equalities. -/
theorem execute_idempotency_witness :
    (execute ⟨"550e8400-e29b-41d4-a716-446655440000", "ETHEREUM", "GET_BALANCE",
        "0x1234567890123456789012345678901234567890",
        "0x0987654321098765432109876543210987654321", "key-1"⟩
      ⟨false, [], true, true, .ok 5, .ok 20, .ok 100, .ok "", .ok ⟨0, 0⟩⟩
      [markAsSuccess (markAsProcessing (NewEVMTransaction
        "550e8400-e29b-41d4-a716-446655440000" "ETHEREUM" "GET_BALANCE"
        "0x1234567890123456789012345678901234567890"
        "0x0987654321098765432109876543210987654321" "key-1")) "" 0 0] =
      (.ok (buildResponse (NewEVMTransaction
        "550e8400-e29b-41d4-a716-446655440000" "ETHEREUM" "GET_BALANCE"
        "0x1234567890123456789012345678901234567890"
        "0x0987654321098765432109876543210987654321" "key-1")),
       [markAsSuccess (markAsProcessing (NewEVMTransaction
        "550e8400-e29b-41d4-a716-446655440000" "ETHEREUM" "GET_BALANCE"
        "0x1234567890123456789012345678901234567890"
        "0x0987654321098765432109876543210987654321" "key-1")) "" 0 0],
       [.lookup "key-1"]) ∧
     (execute ⟨"550e8400-e29b-41d4-a716-446655440000", "ETHEREUM", "GET_BALANCE",
        "0x1234567890123456789012345678901234567890",
        "0x0987654321098765432109876543210987654321", "key-1"⟩
      ⟨false, [], true, true, .ok 5, .ok 20, .ok 100, .ok "", .ok ⟨0, 0⟩⟩
      [markAsSuccess (markAsProcessing (NewEVMTransaction
        "550e8400-e29b-41d4-a716-446655440000" "ETHEREUM" "GET_BALANCE"
        "0x1234567890123456789012345678901234567890"
        "0x0987654321098765432109876543210987654321" "key-1")) "" 0 0]).2.2.any
       Effect.isRpc = false ∧
     (execute ⟨"550e8400-e29b-41d4-a716-446655440000", "ETHEREUM", "GET_BALANCE",
        "0x1234567890123456789012345678901234567890",
        "0x0987654321098765432109876543210987654321", "key-1"⟩
      ⟨false, [], true, true, .ok 5, .ok 20, .ok 100, .ok "", .ok ⟨0, 0⟩⟩
      [markAsSuccess (markAsProcessing (NewEVMTransaction
        "550e8400-e29b-41d4-a716-446655440000" "ETHEREUM" "GET_BALANCE"
        "0x1234567890123456789012345678901234567890"
        "0x0987654321098765432109876543210987654321" "key-1")) "" 0 0]).2.2.any
       Effect.isSave = false) ∧
    ((buildResponse (NewEVMTransaction
        "550e8400-e29b-41d4-a716-446655440000" "ETHEREUM" "GET_BALANCE"
        "0x1234567890123456789012345678901234567890"
        "0x0987654321098765432109876543210987654321" "key-1")).transactionHash =
     (buildResponse (markAsSuccess (markAsProcessing (NewEVMTransaction
        "550e8400-e29b-41d4-a716-446655440000" "ETHEREUM" "GET_BALANCE"
        "0x1234567890123456789012345678901234567890"
        "0x0987654321098765432109876543210987654321" "key-1")) "" 0 0)).transactionHash ∧
     ((buildResponse (markAsSuccess (markAsProcessing (NewEVMTransaction
        "550e8400-e29b-41d4-a716-446655440000" "ETHEREUM" "GET_BALANCE"
        "0x1234567890123456789012345678901234567890"
        "0x0987654321098765432109876543210987654321" "key-1")) "" 0 0)).transactionHash ≠
        "" →
      (buildResponse (NewEVMTransaction
        "550e8400-e29b-41d4-a716-446655440000" "ETHEREUM" "GET_BALANCE"
        "0x1234567890123456789012345678901234567890"
        "0x0987654321098765432109876543210987654321" "key-1")).status =
      (buildResponse (markAsSuccess (markAsProcessing (NewEVMTransaction
        "550e8400-e29b-41d4-a716-446655440000" "ETHEREUM" "GET_BALANCE"
        "0x1234567890123456789012345678901234567890"
        "0x0987654321098765432109876543210987654321" "key-1")) "" 0 0)).status)) :=
  ⟨execute_idempotency.1 ⟨"550e8400-e29b-41d4-a716-446655440000", "ETHEREUM",
        "GET_BALANCE", "0x1234567890123456789012345678901234567890",
        "0x0987654321098765432109876543210987654321", "key-1"⟩
      ⟨false, [], true, true, .ok 5, .ok 20, .ok 100, .ok "", .ok ⟨0, 0⟩⟩
      [markAsSuccess (markAsProcessing (NewEVMTransaction
        "550e8400-e29b-41d4-a716-446655440000" "ETHEREUM" "GET_BALANCE"
        "0x1234567890123456789012345678901234567890"
        "0x0987654321098765432109876543210987654321" "key-1")) "" 0 0]
      (NewEVMTransaction
        "550e8400-e29b-41d4-a716-446655440000" "ETHEREUM" "GET_BALANCE"
        "0x1234567890123456789012345678901234567890"
        "0x0987654321098765432109876543210987654321" "key-1")
      (by decide) (by decide),
   execute_idempotency.2 ⟨"550e8400-e29b-41d4-a716-446655440000", "ETHEREUM",
        "GET_BALANCE", "0x1234567890123456789012345678901234567890",
        "0x0987654321098765432109876543210987654321", "key-1"⟩
      ⟨"550e8400-e29b-41d4-a716-446655440000", "ETHEREUM", "GET_BALANCE",
        "0x1234567890123456789012345678901234567890",
        "0x0987654321098765432109876543210987654321", "key-1"⟩
      ⟨false, [], true, true, .ok 5, .ok 20, .ok 100, .ok "", .ok ⟨0, 0⟩⟩
      ⟨false, [], true, true, .ok 5, .ok 20, .ok 100, .ok "", .ok ⟨0, 0⟩⟩
      []
      [markAsSuccess (markAsProcessing (NewEVMTransaction
        "550e8400-e29b-41d4-a716-446655440000" "ETHEREUM" "GET_BALANCE"
        "0x1234567890123456789012345678901234567890"
        "0x0987654321098765432109876543210987654321" "key-1")) "" 0 0]
      [markAsSuccess (markAsProcessing (NewEVMTransaction
        "550e8400-e29b-41d4-a716-446655440000" "ETHEREUM" "GET_BALANCE"
        "0x1234567890123456789012345678901234567890"
        "0x0987654321098765432109876543210987654321" "key-1")) "" 0 0]
      (buildResponse (markAsSuccess (markAsProcessing (NewEVMTransaction
        "550e8400-e29b-41d4-a716-446655440000" "ETHEREUM" "GET_BALANCE"
        "0x1234567890123456789012345678901234567890"
        "0x0987654321098765432109876543210987654321" "key-1")) "" 0 0))
      (buildResponse (NewEVMTransaction
        "550e8400-e29b-41d4-a716-446655440000" "ETHEREUM" "GET_BALANCE"
        "0x1234567890123456789012345678901234567890"
        "0x0987654321098765432109876543210987654321" "key-1"))
      [.lookup "key-1",
       .save (markAsProcessing (NewEVMTransaction
        "550e8400-e29b-41d4-a716-446655440000" "ETHEREUM" "GET_BALANCE"
        "0x1234567890123456789012345678901234567890"
        "0x0987654321098765432109876543210987654321" "key-1")),
       .rpcGetBalance "0x0987654321098765432109876543210987654321",
       .save (markAsSuccess (markAsProcessing (NewEVMTransaction
        "550e8400-e29b-41d4-a716-446655440000" "ETHEREUM" "GET_BALANCE"
        "0x1234567890123456789012345678901234567890"
        "0x0987654321098765432109876543210987654321" "key-1")) "" 0 0)]
      [.lookup "key-1"]
      (fun t ht => absurd ht (List.not_mem_nil t))
      rfl rfl rfl (by decide) (by decide)⟩

end ChainEVM
